import Mathlib

/-!
Verification of the trip-genius travel-booking assistant.

This file embeds, in Lean, the deterministic core of the repository:

* `app/core/utils.py` — `flatten_json` and `compare_parameters`;
* `app/core/helpers.py` — the generator-based parameter-collection session
  `extract_parameters_with_llm` (one-shot extraction, null filtering, the
  required-field prompt loop) and the email validator used by
  `extract_traveler_details`;
* `app/core/booking_agent.py` — the three booking legs `_run`,
  `_run_hotel_booking`, `_run_itinerary`, the traveler-collection loop of
  `initiate_bookings`, and the orchestration of the legs.

External collaborators (the LLM chat calls and the Amadeus HTTP endpoints)
are modelled as oracle parameters: an LLM call is a value of type
`Except String ...` (`.error` = the call raised, `.ok` = the response
content), and each HTTP call site receives its outcome from an environment
record.  Python exceptions that the source does not catch are modelled by
an `Except.error` result; dictionaries are association lists with Python
dict semantics (first-insertion order, last value wins).
-/

/-- JSON values, the data model for all parameter dictionaries and
    vendor-API payloads appearing in the source. -/
inductive JVal where
  | null
  | str (s : String)
  | num (n : Int)
  | bool (b : Bool)
  | arr (xs : List JVal)
  | obj (fields : List (String × JVal))

mutual

/-- Python `==` on JSON values (structural equality). -/
def JVal.beq : JVal → JVal → Bool
  | .null, .null => true
  | .str a, .str b => a == b
  | .num a, .num b => a == b
  | .bool a, .bool b => a == b
  | .arr xs, .arr ys => JVal.beqList xs ys
  | .obj xs, .obj ys => JVal.beqFields xs ys
  | _, _ => false

def JVal.beqList : List JVal → List JVal → Bool
  | [], [] => true
  | x :: xs, y :: ys => JVal.beq x y && JVal.beqList xs ys
  | _, _ => false

def JVal.beqFields : List (String × JVal) → List (String × JVal) → Bool
  | [], [] => true
  | (k, v) :: xs, (l, w) :: ys => k == l && JVal.beq v w && JVal.beqFields xs ys
  | _, _ => false

end


/-- A Python dictionary with string keys, as an association list in
    insertion order. -/
abbrev Params := List (String × JVal)

/-- Python dict lookup `d.get(key)`: the value stored at `key` (association
    lists built by `insertParam` have unique keys, so the first match is
    the binding). -/
def lookupParam : Params → String → Option JVal
  | [], _ => none
  | (k, v) :: rest, key => if k = key then some v else lookupParam rest key

/-- Python dict assignment `d[key] = val`: overwrite the existing binding
    in place, else append a new binding. -/
def insertParam : Params → String → JVal → Params
  | [], key, val => [(key, val)]
  | (k, v) :: rest, key, val =>
    if k = key then (k, val) :: rest else (k, v) :: insertParam rest key val

/-- Python `dict(items)`: fold a key/value list into a dictionary; a later
    duplicate key overwrites the earlier value but keeps its position. -/
def toDict (items : List (String × JVal)) : Params :=
  items.foldl (fun d kv => insertParam d kv.1 kv.2) []

/-- Python `str.strip()` (whitespace characters as recognised by
    `Char.isWhitespace`). -/
def pyStrip (s : String) : String :=
  String.mk (((s.data.dropWhile Char.isWhitespace).reverse.dropWhile Char.isWhitespace).reverse)

/-- Python `str.lower()`. -/
def pyLower (s : String) : String :=
  String.mk (s.data.map Char.toLower)

/-- A single-quote character, used by the source's prompt strings. -/
def squote : String := String.singleton (Char.ofNat 39)

/-! ## `app/core/utils.py` -/

/-- Key-path join used by `flatten_json`:
    `new_key = f"{parent_key}{sep}{k}" if parent_key else k` with the
    default separator. -/
def joinKey (parent k : String) : String :=
  if parent = "" then k else parent ++ "." ++ k

mutual

/-- `flatten_json(nested_json, parent_key)` from `app/core/utils.py`.
    The argument must be a dict (`nested_json.items()`); any other value
    raises `AttributeError`, modelled as `.error`. -/
def flatten_json : JVal → String → Except String (List (String × JVal))
  | .obj fs, parent => flattenFields fs parent
  | _, _ => .error "AttributeError: items"

/-- One iteration of the `for k, v in nested_json.items()` loop body of
    `flatten_json`, dispatched on the value: nested dicts recurse, lists
    recurse per indexed item, anything else is a leaf. -/
def flattenValue : JVal → String → Except String (List (String × JVal))
  | .obj fs, nk => flattenFields fs nk
  | .arr xs, nk => flattenItems xs nk 0
  | leaf, nk => .ok [(nk, leaf)]

/-- The `for k, v in nested_json.items()` loop of `flatten_json`,
    accumulating `items` in order. -/
def flattenFields : List (String × JVal) → String → Except String (List (String × JVal))
  | [], _ => .ok []
  | (k, v) :: rest, parent =>
    match flattenValue v (joinKey parent k) with
    | .error e => .error e
    | .ok head =>
      match flattenFields rest parent with
      | .error e => .error e
      | .ok tail => .ok (head ++ tail)

/-- The `for i, item in enumerate(v)` loop of `flatten_json`: every list
    item is flattened with key `f"{new_key}[{i}]"` and must itself be a
    dict. -/
def flattenItems : List JVal → String → Nat → Except String (List (String × JVal))
  | [], _, _ => .ok []
  | x :: xs, nk, i =>
    match flatten_json x (nk ++ "[" ++ toString i ++ "]") with
    | .error e => .error e
    | .ok head =>
      match flattenItems xs nk (i + 1) with
      | .error e => .error e
      | .ok tail => .ok (head ++ tail)

end

/-- The sentinel `flat_generated.get(key, "Missing in generated")` used by
    `compare_parameters`. -/
def missingSentinel : JVal := JVal.str "Missing in generated"

/-- `compare_parameters(generated, baseline)` from `app/core/utils.py`:
    flatten both dictionaries, count baseline keys whose value matches the
    generated value, and return the match percentage
    (`(matched_keys / total_keys) * 100 if total_keys > 0 else 0`).
    Python exceptions escaping `flatten_json` are modelled as `.error`;
    the mismatch printing is a side effect with no bearing on the result. -/
def compare_parameters (generated baseline : JVal) : Except String ℚ :=
  match flatten_json generated "" with
  | .error e => .error e
  | .ok fg =>
    match flatten_json baseline "" with
    | .error e => .error e
    | .ok fb =>
      let flat_generated := toDict fg
      let flat_baseline := toDict fb
      let total_keys := flat_baseline.length
      let matched_keys :=
        (flat_baseline.filter (fun kv =>
          JVal.beq ((lookupParam flat_generated kv.1).getD missingSentinel) kv.2)).length
      if total_keys > 0 then .ok (((matched_keys : ℚ) / (total_keys : ℚ)) * 100)
      else .ok 0

/-! ## Validation policy (`app/core/helpers.py` line 382,
    `app/core/booking_agent.py` line 352) -/

/-- The email validator passed to `validate_input` when collecting a
    traveler's email address: `lambda e: '@' in e and '.' in e`. -/
def email_validator (e : String) : Bool :=
  e.data.contains '@' && e.data.contains '.'

/-! ## `app/core/helpers.py`: the parameter-collection session -/

/-- `get_parameter_description(param)` from `app/core/helpers.py`: the
    human description table, defaulting to `'No description available'`. -/
def get_parameter_description (param : String) : String :=
  if param = "originLocationCode" then
    "City/airport IATA code from which the traveler will depart (e.g., JFK for New York)"
  else if param = "destinationLocationCode" then
    "City/airport IATA code to which the traveler is going (e.g., DEL for Delhi)"
  else if param = "departureDate" then
    "Date of departure in ISO 8601 YYYY-MM-DD format (e.g., 2024-12-30)"
  else if param = "returnDate" then
    "Date of return in ISO 8601 YYYY-MM-DD format (e.g., 2025-01-05)"
  else if param = "adults" then
    "Number of adult travelers (age 12 or older)"
  else if param = "max" then
    "Maximum number of flight offers to return (must be >= 1, default 250)"
  else if param = "travelPlanPreference" then
    "Preference for itinerary (Take from user input, leave empty if not specified explicitly)"
  else if param = "country" then
    "Country code of the destination location from with the traveller will arrive(e.g., US for New York). Donot leave empty."
  else if param = "city" then
    "Full city name of the destination city from with the traveller will arrive(e.g., New York City for New York or NYC).  Donot leave empty."
  else if param = "currencyCode" then
    "Country currency of the source location from with the traveller will depart(originLocationCode e.g., USD for New York). Donot leave empty"
  else "No description available"

/-- The prompt text yielded for a missing required parameter:
    `f"Please provide a value for '{param}' - {param_description}: "`. -/
def required_param_prompt (param : String) : String :=
  "Please provide a value for " ++ squote ++ param ++ squote ++ " - " ++
    get_parameter_description param ++ ": "

/-- The debug text yielded when per-field extraction fails:
    `f"Extraction failed for parameter '{param}'. Please provide a valid value."`. -/
def extraction_failed_message (param : String) : String :=
  "Extraction failed for parameter " ++ squote ++ param ++ squote ++
    ". Please provide a valid value."

/-- The literal two-quote string `"''"` that `extract_parameters_with_llm`
    rejects as an extraction result (the single-param prompt instructs the
    LLM to answer exactly this when extraction is impossible). -/
def emptyMarker : String := squote ++ squote

/-- A value yielded by the session generator to its transport: either a
    suspension point asking the user for input, or a debug message. -/
inductive Step where
  | prompt (text : String)
  | message (text : String)

/-- The per-field extraction oracle: the outcome of the `n`-th
    `extract_single_param_value_llm(param, ..., input_value, ...)` call,
    i.e. the `response.content` string of that LLM call (`none` models the
    defensive `is None` branch of the source). -/
abbrev ParamOracle := Nat → String → String → Option String

/-- The `for param in required_params: while param not in extracted_params`
    scan, advanced past every parameter already present.  Consecutive
    present parameters cause no observable step in the source, so the scan
    is compressed into one pass; the first absent parameter (if any) heads
    the result. -/
def skipPresent (params : Params) : List String → List String
  | [] => []
  | p :: rest =>
    if (lookupParam params p).isSome then skipPresent params rest else p :: rest

/-- The interactive required-field loop of `extract_parameters_with_llm`
    (`app/core/helpers.py` lines 161-179), as a state machine driven by the
    list of user resumption values:

    * when every required field is present, the generator returns
      (`some (extracted_params, llm_calls_count)`);
    * at a missing field it yields a `Step.prompt` suspension point; if no
      resumption value is left the run stops suspended (`none`);
    * a resumption value is stripped and handed to the per-field extraction
      oracle; a `none`/`"''"` result yields a debug `Step.message` and
      re-prompts, any other string (the empty string included) is stored
      and the scan resumes. -/
def collectLoop (oracle : ParamOracle) (inputs : List String) (params : Params)
    (pending : List String) (calls : Nat) : List Step × Option (Params × Nat) :=
  match skipPresent params pending with
  | [] => ([], some (params, calls))
  | p :: rest =>
    let step := Step.prompt (required_param_prompt p)
    match inputs with
    | [] => ([step], none)
    | input :: is =>
      let input_value := pyStrip input
      let calls' := calls + 1
      match oracle calls' p input_value with
      | none =>
        let next := collectLoop oracle is params (p :: rest) calls'
        (step :: Step.message (extraction_failed_message p) :: next.1, next.2)
      | some extracted =>
        if extracted = emptyMarker then
          let next := collectLoop oracle is params (p :: rest) calls'
          (step :: Step.message (extraction_failed_message p) :: next.1, next.2)
        else
          let next := collectLoop oracle is
            (insertParam params p (JVal.str extracted)) rest calls'
          (step :: next.1, next.2)
termination_by structural inputs

/-- The `{"adults": 1, "max": 5}` fallback installed when the one-shot
    extraction response is not valid JSON. -/
def default_extracted_params : Params :=
  [("adults", JVal.num 1), ("max", JVal.num 5)]

/-- The null filter of `extract_parameters_with_llm`:
    `{k: v for k, v in extracted_params.items() if v is not None}`. -/
def remove_null_params (d : Params) : Params :=
  d.filter (fun kv => match kv.2 with | JVal.null => false | _ => true)

/-- `extract_parameters_with_llm` from `app/core/helpers.py`.

    `oneShot` is the outcome of the single full-query LLM call combined
    with `json.loads` on its content: `.error` when `chain.invoke` raised
    (the source's `try` only guards `json.loads`, so that exception
    propagates), `.ok none` when the content was not valid JSON
    (`json.JSONDecodeError`), and `.ok (some d)` for a parsed JSON object.
    The required-parameter names of `function_spec` are passed as
    `required`.  The result carries the trace of yielded steps and, when
    the generator returned, the final parameter dict with
    `llm_calls_count`. -/
def extract_parameters_with_llm (oneShot : Except String (Option Params))
    (oracle : ParamOracle) (required : List String) (interactive_mode : Bool)
    (inputs : List String) : Except String (List Step × Option (Params × Nat)) :=
  match oneShot with
  | .error e => .error e
  | .ok parsed =>
    let extracted_params :=
      match parsed with
      | none => default_extracted_params
      | some d => d
    if !interactive_mode then .ok ([], some (extracted_params, 1))
    else
      let extracted_params := remove_null_params extracted_params
      .ok (collectLoop oracle inputs extracted_params required 1)

/-! ## Dictionary lemmas -/

/-- Keys of a dictionary are pairwise distinct. -/
def keysNodup : Params → Prop
  | [] => True
  | (k, _) :: rest => (∀ w, (k, w) ∉ rest) ∧ keysNodup rest


/-! ## `app/core/booking_agent.py`: Python runtime helpers -/

/-- Whether a char list starts with the given needle. -/
def listStartsWith : List Char → List Char → Bool
  | _, [] => true
  | [], _ :: _ => false
  | h :: t, n :: ns => h == n && listStartsWith t ns

/-- Substring test over char lists (Python `needle in haystack` for
    strings). -/
def listContainsSub : List Char → List Char → Bool
  | [], needle => needle.isEmpty
  | h :: t, needle => listStartsWith (h :: t) needle || listContainsSub t needle

/-- Python `key in j`: key test for dicts, element test for lists,
    substring test for strings; other operand types raise `TypeError`. -/
def pyContains (j : JVal) (key : String) : Except String Bool :=
  match j with
  | .obj fields => .ok (lookupParam fields key).isSome
  | .arr xs => .ok (xs.any (fun x => JVal.beq x (JVal.str key)))
  | .str s => .ok (listContainsSub s.data key.data)
  | _ => .error "TypeError: argument is not iterable"

/-- Python dict subscription `j[key]` with a string key: `KeyError` when
    the key is absent, `TypeError` when `j` is not a dict. -/
def pyGetItem (j : JVal) (key : String) : Except String JVal :=
  match j with
  | .obj fields =>
    match lookupParam (toDict fields) key with
    | some v => .ok v
    | none => .error ("KeyError: " ++ key)
  | _ => .error "TypeError: object is not subscriptable"

/-- Python list subscription `j[i]` with an integer index (a negative
    index counts from the end). -/
def pyIndex (j : JVal) (i : Int) : Except String JVal :=
  match j with
  | .arr xs =>
    let idx := if i < 0 then i + xs.length else i
    match xs.get? idx.toNat with
    | some v => if 0 ≤ idx then .ok v else .error "IndexError: list index out of range"
    | none => .error "IndexError: list index out of range"
  | _ => .error "TypeError: object is not subscriptable"

/-- Python `len(j)`. -/
def pyLen (j : JVal) : Except String Nat :=
  match j with
  | .arr xs => .ok xs.length
  | .obj fields => .ok (toDict fields).length
  | .str s => .ok s.length
  | _ => .error "TypeError: object has no length"

/-- Python `+` on two values, as used by the string concatenations of the
    flight-detail construction. -/
def pyAddStr (a b : JVal) : Except String JVal :=
  match a, b with
  | .str x, .str y => .ok (.str (x ++ y))
  | _, _ => .error "TypeError: unsupported operand types"

/-- Python `str.isdigit()`. -/
def pyIsDigit (s : String) : Bool := !s.isEmpty && s.data.all Char.isDigit

/-- Numeric value of a digit string. -/
def digitsVal (l : List Char) : Nat := l.foldl (fun a c => a * 10 + (c.toNat - 48)) 0

/-- Python `int(...)` of a JSON value: numbers pass through, decimal
    strings (optionally signed, after stripping) are parsed, anything else
    raises. -/
def pyInt (v : JVal) : Except String Int :=
  match v with
  | .num n => .ok n
  | .bool b => .ok (if b then 1 else 0)
  | .str s =>
    match (pyStrip s).data with
    | '-' :: ds =>
      if !ds.isEmpty && ds.all Char.isDigit then .ok (-(digitsVal ds : Int))
      else .error "ValueError: invalid literal for int()"
    | '+' :: ds =>
      if !ds.isEmpty && ds.all Char.isDigit then .ok (digitsVal ds : Int)
      else .error "ValueError: invalid literal for int()"
    | ds =>
      if !ds.isEmpty && ds.all Char.isDigit then .ok (digitsVal ds : Int)
      else .error "ValueError: invalid literal for int()"
  | _ => .error "TypeError: int() argument"

/-- Unsigned decimal numeral (with optional fractional part) as a
    rational. -/
def parseUnsignedDecimal (l : List Char) : Except String ℚ :=
  let intPart := l.takeWhile Char.isDigit
  let after := l.drop intPart.length
  match after with
  | [] =>
    if intPart.isEmpty then .error "ValueError: could not convert string to float"
    else .ok (digitsVal intPart)
  | '.' :: frac =>
    if frac.all Char.isDigit && !(intPart.isEmpty && frac.isEmpty) then
      .ok ((digitsVal intPart : ℚ) + (digitsVal frac : ℚ) / ((10 : ℚ) ^ frac.length))
    else .error "ValueError: could not convert string to float"
  | _ => .error "ValueError: could not convert string to float"

/-- Python `float(...)` of a string, modelled for decimal numerals
    (optional sign, optional fractional part); exact rational value. -/
def pyFloat (s : String) : Except String ℚ :=
  match (pyStrip s).data with
  | '-' :: rest => (parseUnsignedDecimal rest).map (fun q => -q)
  | '+' :: rest => parseUnsignedDecimal rest
  | rest => parseUnsignedDecimal rest

/-- Python `float(...)` of a JSON value. -/
def pyFloatVal (v : JVal) : Except String ℚ :=
  match v with
  | .num n => .ok (n : ℚ)
  | .bool b => .ok (if b then 1 else 0)
  | .str s => pyFloat s
  | _ => .error "TypeError: float() argument"

/-- Insert an element into a sorted list after every element that compares
    `le` to it, preserving the relative order of equal keys. -/
def insortBy {α : Type} (le : α → α → Bool) (x : α) : List α → List α
  | [] => [x]
  | y :: ys => if le y x then y :: insortBy le x ys else x :: y :: ys

/-- Stable sort: the model of Python `sorted` (whose output is the unique
    stable ordering for a total preorder on keys). -/
def pySorted {α : Type} (le : α → α → Bool) (l : List α) : List α :=
  l.foldl (fun acc x => insortBy le x acc) []

/-- A Python `for` loop building a list of per-element results: elements
    are processed in order and the first raised exception propagates
    (extensionally, `List.mapM` for `Except`). -/
def exceptMapM {α β : Type} (f : α → Except String β) : List α → Except String (List β)
  | [] => .ok []
  | x :: xs =>
    match f x with
    | .error e => .error e
    | .ok y =>
      match exceptMapM f xs with
      | .error e => .error e
      | .ok ys => .ok (y :: ys)

/-! ## `app/core/booking_agent.py`: the booking legs -/

/-- The `AMADEUS_CLIENT_ID` / `AMADEUS_CLIENT_SECRET` environment
    variables; `os.getenv` yields `none` when a variable is unset. -/
structure Creds where
  client_id : Option String
  client_secret : Option String

/-- Python falsiness of an optional string (`not client_id`). -/
def strFalsy : Option String → Bool
  | none => true
  | some s => s.isEmpty

/-- The `if not client_id or not client_secret` credential check shared by
    all three legs. -/
def Creds.missing (c : Creds) : Bool :=
  strFalsy c.client_id || strFalsy c.client_secret

/-- Outcomes of the four HTTP calls `_run` makes, in call order.  A
    `.error` models a `requests.RequestException` (connection failure or
    `raise_for_status` on a non-2xx status); `.ok j` is a response whose
    body parsed to `j`. -/
structure FlightApiEnv where
  token_response : Except String JVal
  offers_response : Except String JVal
  pricing_response : Except String JVal
  order_response : Except String JVal

/-- Outcomes of the four HTTP calls `_run_hotel_booking` makes, in call
    order. -/
structure HotelApiEnv where
  token_response : Except String JVal
  by_city_response : Except String JVal
  hotel_offers_response : Except String JVal
  order_response : Except String JVal

/-- Outcomes of the HTTP calls `_run_itinerary` makes (token, city
    coordinates, activities) plus its final LLM chat call. -/
structure ItineraryApiEnv where
  token_response : Except String JVal
  cities_response : Except String JVal
  activities_response : Except String JVal
  llm_response : Except String String

/-- The `{"error": "Missing credentials for Amadeus API."}` early return
    of `_run` and `_run_hotel_booking`. -/
def missingCredsError : JVal :=
  .obj [("error", .str "Missing credentials for Amadeus API.")]

/-- A flight-leg error dict
    `{"error": str(e), "_flight_api_calls": calls, "_flight_api_success": succ}`. -/
def flightErr (e : String) (calls succ : Nat) : JVal :=
  .obj [("error", .str e), ("_flight_api_calls", .num (calls : Int)),
        ("_flight_api_success", .num (succ : Int))]

/-- A hotel-leg error dict
    `{"error": str(e), "_hotel_api_calls": calls, "_hotel_api_success": succ}`. -/
def hotelErr (e : String) (calls succ : Nat) : JVal :=
  .obj [("error", .str e), ("_hotel_api_calls", .num (calls : Int)),
        ("_hotel_api_success", .num (succ : Int))]

/-- The `booking_params` dictionary assembled by `initiate_bookings`
    (lines 892-904) and passed to each leg as keyword arguments.  Only
    `travelers_details` influences control flow in the legs; the other
    fields feed HTTP request parameters and prompt text, whose responses
    the environment records supply. -/
structure BookingParams where
  originLocationCode : String
  destinationLocationCode : String
  departureDate : String
  returnDate : String
  adults : Nat
  max : Nat
  travelers_details : List JVal
  travelPlanPreference : String
  country : String
  city : String
  currencyCode : String

/-- The guard `"data" not in j or len(j["data"]) == 0`, with Python
    short-circuit evaluation. -/
def missingOrEmpty (j : JVal) (key : String) : Except String Bool :=
  match pyContains j key with
  | .error e => .error e
  | .ok b =>
    if !b then .ok true
    else
      match pyGetItem j key with
      | .error e => .error e
      | .ok d =>
        match pyLen d with
        | .error e => .error e
        | .ok n => .ok (n = 0)

/-- The guard `"data" not in j or len(j["data"]) == 0 or key not in
    j["data"][0]` used by the hotel-offers and city-coordinates checks. -/
def dataFirstMissingKey (j : JVal) (key : String) : Except String Bool :=
  match pyContains j "data" with
  | .error e => .error e
  | .ok b =>
    if !b then .ok true
    else
      match pyGetItem j "data" with
      | .error e => .error e
      | .ok d =>
        match pyLen d with
        | .error e => .error e
        | .ok n =>
          if n = 0 then .ok true
          else
            match pyIndex d 0 with
            | .error e => .error e
            | .ok d0 =>
              match pyContains d0 key with
              | .error e => .error e
              | .ok b2 => .ok (!b2)

/-- The guard `"data" not in pricing_data or "flightOffers" not in
    pricing_data["data"] or len(pricing_data["data"]["flightOffers"]) == 0`
    of `_run`. -/
def pricedOffersMissing (pricing_data : JVal) : Except String Bool :=
  match pyContains pricing_data "data" with
  | .error e => .error e
  | .ok b =>
    if !b then .ok true
    else
      match pyGetItem pricing_data "data" with
      | .error e => .error e
      | .ok d =>
        match pyContains d "flightOffers" with
        | .error e => .error e
        | .ok b2 =>
          if !b2 then .ok true
          else
            match pyGetItem d "flightOffers" with
            | .error e => .error e
            | .ok fo =>
              match pyLen fo with
              | .error e => .error e
              | .ok n => .ok (n = 0)

/-- One element of the `flight_details` list of `_run` (the dict built at
    lines 456-465 for each offer); a missing key, bad index or non-string
    concatenation raises. -/
def build_flight_detail (mappings flight : JVal) : Except String JVal := do
  let itineraries ← pyGetItem flight "itineraries"
  let it0 ← pyIndex itineraries 0
  let segs0 ← pyGetItem it0 "segments"
  let s00 ← pyIndex segs0 0
  let dep ← pyGetItem s00 "departure"
  let depCode ← pyGetItem dep "iataCode"
  let depAt ← pyGetItem dep "at"
  let dep1 ← pyAddStr depCode (JVal.str " at: ")
  let departure ← pyAddStr dep1 depAt
  let sLast ← pyIndex segs0 (-1)
  let arr0 ← pyGetItem sLast "arrival"
  let arrCode ← pyGetItem arr0 "iataCode"
  let arrAt ← pyGetItem arr0 "at"
  let arr1 ← pyAddStr arrCode (JVal.str " at: ")
  let arrival ← pyAddStr arr1 arrAt
  let it1 ← pyIndex itineraries 1
  let rsegs ← pyGetItem it1 "segments"
  let r0 ← pyIndex rsegs 0
  let rdep ← pyGetItem r0 "departure"
  let rdepCode ← pyGetItem rdep "iataCode"
  let rdepAt ← pyGetItem rdep "at"
  let rdep1 ← pyAddStr rdepCode (JVal.str " at: ")
  let returnDeparture ← pyAddStr rdep1 rdepAt
  let rLast ← pyIndex rsegs (-1)
  let rarr ← pyGetItem rLast "arrival"
  let rarrCode ← pyGetItem rarr "iataCode"
  let rarrAt ← pyGetItem rarr "at"
  let rarr1 ← pyAddStr rarrCode (JVal.str " at: ")
  let returnArrival ← pyAddStr rarr1 rarrAt
  let carrier ← pyGetItem s00 "carrierCode"
  let airlines ←
    match carrier with
    | .str c => pyGetItem mappings c
    | _ => .error "TypeError: unhashable key"
  let rcarrier ← pyGetItem r0 "carrierCode"
  let returnAirlines ←
    match rcarrier with
    | .str c => pyGetItem mappings c
    | _ => .error "TypeError: unhashable key"
  let price ← pyGetItem flight "price"
  let grandTotal ← pyGetItem price "grandTotal"
  let currency ← pyGetItem price "currency"
  pure (JVal.obj [
    ("departure", departure), ("arrival", arrival),
    ("return departure", returnDeparture), ("return arrival", returnArrival),
    ("airlines", airlines), ("return airlines", returnAirlines),
    ("price", grandTotal), ("currency", currency)])

/-- The `preferred_flight` / `preferred_hotel` selection: a non-numeric or
    out-of-range console answer falls back to the first (cheapest) entry,
    otherwise the numeral itself is used (1-based). -/
def parse_choice (s : String) (n : Nat) : Nat :=
  if !pyIsDigit s then 1
  else
    let k := digitsVal s.data
    if k < 1 || k > n then 1 else k

/-- `AmadeusFlightBookingTool._run` (`app/core/booking_agent.py` lines
    384-527): the flight leg.  The first component is the Python return
    value (`.ok dict`) or the uncaught exception (`.error`); the second
    counts attempted HTTP requests (the source increments
    `flight_api_calls` before each attempt).  Request payloads (the chosen
    offer, the priced offer, `travelers_details`) only feed HTTP requests
    whose outcomes the environment supplies. -/
def run_flight_booking (creds : Creds) (env : FlightApiEnv)
    (preferred_flight_input : String) (_params : BookingParams) :
    Except String JVal × Nat :=
  if creds.missing then (.ok missingCredsError, 0)
  else
    match env.token_response with
    | .error e => (.ok (flightErr e 1 0), 1)
    | .ok tokenJson =>
      match pyGetItem tokenJson "access_token" with
      | .error ke => (.error ke, 1)
      | .ok _ =>
        match env.offers_response with
        | .error e => (.ok (flightErr e 2 1), 2)
        | .ok results =>
          match missingOrEmpty results "data" with
          | .error te => (.error te, 2)
          | .ok true => (.ok (flightErr "No flight offers found." 2 2), 2)
          | .ok false =>
            match pyGetItem results "data" with
            | .error te => (.error te, 2)
            | .ok flightDataJ =>
              match pyGetItem results "dictionaries" with
              | .error te => (.error te, 2)
              | .ok dicts =>
                match pyGetItem dicts "carriers" with
                | .error te => (.error te, 2)
                | .ok mappings =>
                  match flightDataJ with
                  | .arr flightData =>
                    match exceptMapM (build_flight_detail mappings) flightData with
                    | .error te => (.error te, 2)
                    | .ok flight_details =>
                      let preferred := parse_choice preferred_flight_input flight_details.length
                      match pyIndex flightDataJ ((preferred : Int) - 1) with
                      | .error te => (.error te, 2)
                      | .ok _flightOfferData =>
                        match env.pricing_response with
                        | .error e => (.ok (flightErr e 3 2), 3)
                        | .ok pricing_data =>
                          match pricedOffersMissing pricing_data with
                          | .error te => (.error te, 3)
                          | .ok true => (.ok (flightErr "No priced flight offers found." 3 3), 3)
                          | .ok false =>
                            match (do
                                let d ← pyGetItem pricing_data "data"
                                let fo ← pyGetItem d "flightOffers"
                                pyIndex fo 0) with
                            | .error te => (.error te, 3)
                            | .ok _flightOfferPriceData =>
                              match env.order_response with
                              | .error e => (.ok (flightErr e 4 3), 4)
                              | .ok order_data =>
                                match order_data with
                                | .obj fs =>
                                  (.ok (JVal.obj (insertParam
                                    (insertParam (toDict fs) "_flight_api_calls" (.num 4))
                                    "_flight_api_success" (.num 4))), 4)
                                | _ => (.error "TypeError: item assignment", 4)
                  | _ => (.error "TypeError: object is not a list", 2)

/-- The field accesses of the hotel display loop of `_run_hotel_booking`
    (`hotel['hotel']['name']`, the first offer's price, currency and
    check-in/check-out dates); a missing field raises. -/
def displayHotelFields (hotel : JVal) : Except String Unit := do
  let h ← pyGetItem hotel "hotel"
  let _ ← pyGetItem h "name"
  let offers ← pyGetItem hotel "offers"
  let o0 ← pyIndex offers 0
  let price ← pyGetItem o0 "price"
  let _ ← pyGetItem price "total"
  let _ ← pyGetItem price "currency"
  let _ ← pyGetItem o0 "checkInDate"
  let _ ← pyGetItem o0 "checkOutDate"
  pure ()

/-- `guest_reference(traveler)`, the guest record builder inside
    `_run_hotel_booking`. -/
def guest_reference (traveler : JVal) : Except String JVal := do
  let idv ← pyGetItem traveler "id"
  let tid ← pyInt idv
  let gender ← pyGetItem traveler "gender"
  let name ← pyGetItem traveler "name"
  let firstName ← pyGetItem name "firstName"
  let lastName ← pyGetItem name "lastName"
  let contact ← pyGetItem traveler "contact"
  let phones ← pyGetItem contact "phones"
  let p0 ← pyIndex phones 0
  let phone ← pyGetItem p0 "number"
  let email ← pyGetItem contact "emailAddress"
  pure (JVal.obj [
    ("tid", .num tid),
    ("title", .str (if JVal.beq gender (JVal.str "MALE") then "MR" else "MS")),
    ("firstName", firstName), ("lastName", lastName),
    ("phone", phone), ("email", email)])

/-- The sort key `float(h["offers"][0]["price"]["total"])` of the hotel
    offer ordering, paired with the offer. -/
def hotelSortKey (h : JVal) : Except String (ℚ × JVal) := do
  let offers ← pyGetItem h "offers"
  let o0 ← pyIndex offers 0
  let price ← pyGetItem o0 "price"
  let total ← pyGetItem price "total"
  let q ← pyFloatVal total
  pure (q, h)

/-- `AmadeusFlightBookingTool._run_hotel_booking` (lines 529-695): the
    hotel leg, with the same conventions as `run_flight_booking`. -/
def run_hotel_booking (creds : Creds) (env : HotelApiEnv)
    (preferred_hotel_input : String) (params : BookingParams) :
    Except String JVal × Nat :=
  if creds.missing then (.ok missingCredsError, 0)
  else
    match env.token_response with
    | .error e => (.ok (hotelErr e 1 0), 1)
    | .ok tokenJson =>
      match pyGetItem tokenJson "access_token" with
      | .error ke => (.error ke, 1)
      | .ok _ =>
        match env.by_city_response with
        | .error e => (.ok (hotelErr e 2 1), 2)
        | .ok results =>
          match missingOrEmpty results "data" with
          | .error te => (.error te, 2)
          | .ok true => (.ok (hotelErr "No hotels found." 2 2), 2)
          | .ok false =>
            match pyGetItem results "data" with
            | .error te => (.error te, 2)
            | .ok dataJ =>
              match dataJ with
              | .arr hotels0 =>
                match exceptMapM (fun h => pyGetItem h "hotelId") (hotels0.take 30) with
                | .error te => (.error te, 2)
                | .ok hotelIdsData =>
                  match exceptMapM (fun v =>
                      match v with
                      | JVal.str s => Except.ok s
                      | _ => Except.error "TypeError: sequence item: expected str") hotelIdsData with
                  | .error te => (.error te, 2)
                  | .ok _hotelIds =>
                    match env.hotel_offers_response with
                    | .error e => (.ok (hotelErr e 3 2), 3)
                    | .ok pricing_data =>
                      match dataFirstMissingKey pricing_data "hotel" with
                      | .error te => (.error te, 3)
                      | .ok true => (.ok (hotelErr "No priced hotel offers found." 3 3), 3)
                      | .ok false =>
                        match pyGetItem pricing_data "data" with
                        | .error te => (.error te, 3)
                        | .ok hotelsJ =>
                          match hotelsJ with
                          | .arr hotels =>
                            match exceptMapM hotelSortKey hotels with
                            | .error te => (.error te, 3)
                            | .ok keyed =>
                              let hotelOfferPriceData :=
                                ((pySorted (fun a b => decide (a.1 ≤ b.1)) keyed).map Prod.snd).take 5
                              match exceptMapM displayHotelFields hotelOfferPriceData with
                              | .error te => (.error te, 3)
                              | .ok _ =>
                                let preferred := parse_choice preferred_hotel_input hotelOfferPriceData.length
                                match (do
                                    let h ←
                                      match hotelOfferPriceData.get? (preferred - 1) with
                                      | some h => Except.ok h
                                      | none => Except.error "IndexError: list index out of range"
                                    let offers ← pyGetItem h "offers"
                                    let o0 ← pyIndex offers 0
                                    pyGetItem o0 "id") with
                                | .error te => (.error te, 3)
                                | .ok _hotelOfferPriceId =>
                                  match exceptMapM guest_reference params.travelers_details with
                                  | .error te => (.error te, 3)
                                  | .ok _guestDetails =>
                                    match env.order_response with
                                    | .error e => (.ok (hotelErr e 4 3), 4)
                                    | .ok order_data =>
                                      match order_data with
                                      | .obj fs =>
                                        (.ok (JVal.obj (insertParam
                                          (insertParam (toDict fs) "_hotel_api_calls" (.num 4))
                                          "_hotel_api_success" (.num 4))), 4)
                                      | _ => (.error "TypeError: item assignment", 4)
                          | _ => (.error "TypeError: object is not a list", 3)
              | _ => (.error "TypeError: object is not a list", 2)

/-- The final LLM chat call of `_run_itinerary` under the outer
    `except Exception` handler: a raised call yields the empty string,
    otherwise the response content is the itinerary. -/
def itineraryLlm (env : ItineraryApiEnv) : String :=
  match env.llm_response with
  | .error _ => ""
  | .ok content => content

/-- `AmadeusFlightBookingTool._run_itinerary` (lines 697-818): the
    itinerary leg.  With missing credentials it raises `ValueError` before
    any call (modelled `.error`).  Inside the outer `try`, every
    exception — a failed token call, a missing `access_token` key, a failed
    cities call or a failed activities call (both leave the local `data`
    unbound, so building the prompt raises `NameError`), or a failed LLM
    call — is swallowed by `except Exception`, returning the empty string.
    The prompt text built from the activities data feeds only the LLM call
    and is not modelled (prompt wording is a spec non-goal); the second
    component counts attempted HTTP requests. -/
def run_itinerary (creds : Creds) (env : ItineraryApiEnv) (_params : BookingParams) :
    Except String String × Nat :=
  if creds.missing then
    (.error "Amadeus API credentials not found. Set AMADEUS_CLIENT_ID and AMADEUS_CLIENT_SECRET.", 0)
  else
    match env.token_response with
    | .error _ => (.ok "", 1)
    | .ok tokenJson =>
      match pyGetItem tokenJson "access_token" with
      | .error _ => (.ok "", 1)
      | .ok _ =>
        match env.cities_response with
        | .error _ => (.ok "", 2)
        | .ok coords =>
          match dataFirstMissingKey coords "geoCode" with
          | .error _ => (.ok "", 2)
          | .ok true => (.ok (itineraryLlm env), 2)
          | .ok false =>
            match env.activities_response with
            | .error _ => (.ok "", 3)
            | .ok act =>
              match missingOrEmpty act "data" with
              | .error _ => (.ok "", 3)
              | .ok _ => (.ok (itineraryLlm env), 3)

/-- The result dictionary returned by `initiate_bookings` (lines 942-952);
    the `booking_params` echo and the `llm_calls` instrumentation counter
    are omitted. -/
structure BookingLegsResult where
  flight_booking_result : JVal
  hotel_booking_result : JVal
  itinerary_result : String
  flight_api_calls : Int
  flight_api_success : Int
  hotel_api_calls : Int
  hotel_api_success : Int

/-- `result.get(key, 0)` for the `_..._api_calls` counters (always stored
    as integers by the legs). -/
def counterGet (j : JVal) (key : String) : Int :=
  match j with
  | .obj fields =>
    match lookupParam (toDict fields) key with
    | some (.num n) => n
    | some _ => 0
    | none => 0
  | _ => 0

/-- The booking phase of `initiate_bookings` (lines 919-952): the three
    legs run in sequence and their results are assembled into one record.
    An exception escaping a leg propagates out of `initiate_bookings`
    unhandled (modelled `.error`); `convert_to_human_readable_result` only
    prints and swallows its own exceptions, so it contributes nothing. -/
def initiate_bookings_legs (creds : Creds) (fEnv : FlightApiEnv)
    (hEnv : HotelApiEnv) (iEnv : ItineraryApiEnv)
    (preferred_flight_input preferred_hotel_input : String)
    (params : BookingParams) : Except String BookingLegsResult :=
  match run_flight_booking creds fEnv preferred_flight_input params with
  | (.error e, _) => .error e
  | (.ok flight_booking_result, _) =>
    match run_hotel_booking creds hEnv preferred_hotel_input params with
    | (.error e, _) => .error e
    | (.ok hotel_booking_result, _) =>
      match run_itinerary creds iEnv params with
      | (.error e, _) => .error e
      | (.ok itinerary_result, _) =>
        .ok {
          flight_booking_result := flight_booking_result
          hotel_booking_result := hotel_booking_result
          itinerary_result := itinerary_result
          flight_api_calls := counterGet flight_booking_result "_flight_api_calls"
          flight_api_success := counterGet flight_booking_result "_flight_api_success"
          hotel_api_calls := counterGet hotel_booking_result "_hotel_api_calls"
          hotel_api_success := counterGet hotel_booking_result "_hotel_api_success" }

/-! ## Traveler collection (`initiate_bookings`, lines 872-888) -/

/-- The `while True` add-another-traveler loop: each interaction is the
    console answer to `"Do you want to add another traveler? (yes/no)"`
    paired with the traveler details extracted from the follow-up free-text
    input of that round.  A lowercased answer other than `yes` stops the
    loop; otherwise the new traveler receives id
    `str(len(travelers_details) + 1)` and is appended. -/
def add_traveler_loop (travelers_details : List Params) :
    List (String × Params) → List Params
  | [] => travelers_details
  | (add_more, details) :: rest =>
    if pyLower add_more ≠ "yes" then travelers_details
    else
      add_traveler_loop
        (travelers_details ++
          [insertParam details "id"
            (JVal.str (toString (travelers_details.length + 1)))]) rest

/-- Traveler collection in `initiate_bookings`: the traveler extracted
    from the query gets id `'1'`; in interactive mode the add-another loop
    then appends further travelers, in batch mode it is skipped. -/
def collect_travelers (first : Params) (interactions : List (String × Params))
    (interactive_mode : Bool) : List Params :=
  let travelers_details := [insertParam first "id" (JVal.str "1")]
  if interactive_mode then add_traveler_loop travelers_details interactions
  else travelers_details

/-- Modelled from the spec: the non-emptiness a field value must satisfy
    for claim C1 ("present and non-empty") — not null and not the empty
    string. -/
def value_nonempty : JVal → Bool
  | .null => false
  | .str s => !s.isEmpty
  | _ => true

/-! ## Concrete sample data for exercising the booking legs -/

/-- A well-formed flight offer: two itineraries of one segment each,
    carrier `XX`, priced in USD. -/
def exampleFlightOffer : JVal :=
  JVal.obj [
    ("itineraries", JVal.arr [
      JVal.obj [("segments", JVal.arr [
        JVal.obj [
          ("departure", JVal.obj [("iataCode", JVal.str "JFK"), ("at", JVal.str "2024-12-20T10:00")]),
          ("arrival", JVal.obj [("iataCode", JVal.str "DEL"), ("at", JVal.str "2024-12-21T05:00")]),
          ("carrierCode", JVal.str "XX")]])],
      JVal.obj [("segments", JVal.arr [
        JVal.obj [
          ("departure", JVal.obj [("iataCode", JVal.str "DEL"), ("at", JVal.str "2025-01-05T12:00")]),
          ("arrival", JVal.obj [("iataCode", JVal.str "JFK"), ("at", JVal.str "2025-01-05T20:00")]),
          ("carrierCode", JVal.str "XX")]])]]),
    ("price", JVal.obj [("grandTotal", JVal.str "980.00"), ("currency", JVal.str "USD")])]

/-- A flight-offers search response holding `exampleFlightOffer`. -/
def exampleOffersResponse : JVal :=
  JVal.obj [
    ("data", JVal.arr [exampleFlightOffer]),
    ("dictionaries", JVal.obj [("carriers", JVal.obj [("XX", JVal.str "Example Air")])])]

/-- A flight pricing response with one priced offer. -/
def examplePricingResponse : JVal :=
  JVal.obj [("data", JVal.obj [("flightOffers", JVal.arr [JVal.obj [("total", JVal.str "980.00")]])])]

/-- A flight-leg environment whose four calls all succeed with well-formed
    payloads. -/
def exampleFlightEnvOk : FlightApiEnv :=
  ⟨.ok (JVal.obj [("access_token", JVal.str "tok")]),
   .ok exampleOffersResponse,
   .ok examplePricingResponse,
   .ok (JVal.obj [("id", JVal.str "ORDER-1")])⟩

/-- `exampleFlightEnvOk` with the final flight-order call failing. -/
def exampleFlightEnvOrderFail : FlightApiEnv :=
  ⟨.ok (JVal.obj [("access_token", JVal.str "tok")]),
   .ok exampleOffersResponse,
   .ok examplePricingResponse,
   .error "OrderDown"⟩

/-- The flight result of a fully successful run over `exampleFlightEnvOk`:
    the order response with the two counters appended. -/
def exampleFlightOrderResult : JVal :=
  JVal.obj [("id", JVal.str "ORDER-1"),
    ("_flight_api_calls", JVal.num 4), ("_flight_api_success", JVal.num 4)]

/-- A hotel-leg environment whose hotels-by-city search call fails with a
    network error after a successful token call. -/
def exampleHotelEnvSearchFail : HotelApiEnv :=
  ⟨.ok (JVal.obj [("access_token", JVal.str "tok")]),
   .error "HotelDown", .ok JVal.null, .ok JVal.null⟩

/-- An itinerary-leg environment returning a plan. -/
def exampleItineraryEnv : ItineraryApiEnv :=
  ⟨.ok (JVal.obj [("access_token", JVal.str "tok")]),
   .ok (JVal.obj []), .ok (JVal.obj []), .ok "PLAN"⟩

/-- Sample assembled booking parameters. -/
def exampleBookingParams : BookingParams :=
  ⟨"JFK", "DEL", "2024-12-20", "2025-01-05", 1, 5, [], "", "", "", ""⟩
/-! # Theorems -/

mutual

theorem JVal.beq_refl : ∀ v : JVal, JVal.beq v v = true
  | .null => rfl
  | .str a => by simp [JVal.beq]
  | .num a => by simp [JVal.beq]
  | .bool a => by simp [JVal.beq]
  | .arr xs => by simpa [JVal.beq] using JVal.beqList_refl xs
  | .obj xs => by simpa [JVal.beq] using JVal.beqFields_refl xs

theorem JVal.beqList_refl : ∀ xs : List JVal, JVal.beqList xs xs = true
  | [] => rfl
  | x :: xs => by
      simp [JVal.beqList]
      exact ⟨JVal.beq_refl x, JVal.beqList_refl xs⟩

theorem JVal.beqFields_refl : ∀ xs : List (String × JVal), JVal.beqFields xs xs = true
  | [] => rfl
  | (k, v) :: xs => by
      simp [JVal.beqFields]
      exact ⟨JVal.beq_refl v, JVal.beqFields_refl xs⟩

end

theorem mem_insertParam (d : Params) (k : String) (v : JVal) (q : String) (w : JVal)
    (h : (q, w) ∈ insertParam d k v) : (q, w) ∈ d ∨ q = k := by
  induction d with
  | nil =>
    simp [insertParam] at h
    exact Or.inr h.1
  | cons hd tl ih =>
    obtain ⟨a, b⟩ := hd
    by_cases ha : a = k
    · simp only [insertParam, ha, if_true] at h
      rcases List.mem_cons.mp h with h' | h'
      · exact Or.inr (congrArg Prod.fst h')
      · exact Or.inl (List.mem_cons_of_mem _ h')
    · simp only [insertParam, ha, if_false] at h
      rcases List.mem_cons.mp h with h' | h'
      · exact Or.inl (h' ▸ List.mem_cons_self _ _)
      · rcases ih h' with h'' | h''
        · exact Or.inl (List.mem_cons_of_mem _ h'')
        · exact Or.inr h''

theorem keysNodup_insertParam (d : Params) (k : String) (v : JVal)
    (h : keysNodup d) : keysNodup (insertParam d k v) := by
  induction d with
  | nil =>
    refine ⟨fun w hw => ?_, trivial⟩
    simp at hw
  | cons hd tl ih =>
    obtain ⟨a, b⟩ := hd
    obtain ⟨hnotin, htl⟩ := h
    by_cases ha : a = k
    · simpa [insertParam, ha, keysNodup] using ⟨fun w => ha ▸ hnotin w, htl⟩
    · refine ?_
      simp only [insertParam, ha, if_false]
      refine ⟨fun w hw => ?_, ih htl⟩
      rcases mem_insertParam tl k v a w hw with h' | h'
      · exact hnotin w h'
      · exact ha h'

theorem keysNodup_foldl_insert (l : List (String × JVal)) :
    ∀ acc : Params, keysNodup acc →
      keysNodup (l.foldl (fun d kv => insertParam d kv.1 kv.2) acc) := by
  induction l with
  | nil => intro acc h; simpa using h
  | cons hd tl ih =>
    intro acc h
    exact ih (insertParam acc hd.1 hd.2) (keysNodup_insertParam acc hd.1 hd.2 h)

theorem keysNodup_toDict (l : List (String × JVal)) : keysNodup (toDict l) :=
  keysNodup_foldl_insert l [] trivial

theorem lookupParam_of_mem (d : Params) (k : String) (v : JVal)
    (hnd : keysNodup d) (h : (k, v) ∈ d) : lookupParam d k = some v := by
  induction d with
  | nil => simp at h
  | cons hd tl ih =>
    obtain ⟨a, b⟩ := hd
    obtain ⟨hnotin, htl⟩ := hnd
    rcases List.mem_cons.mp h with h' | h'
    · have hk : a = k := (congrArg Prod.fst h').symm
      have hv : b = v := (congrArg Prod.snd h').symm
      simp [lookupParam, hk, hv]
    · have hk : ¬ a = k := by
        intro hq
        subst hq
        exact hnotin v h'
      simpa [lookupParam, hk] using ih htl h'

theorem insertParam_length_pos (d : Params) (k : String) (v : JVal) :
    0 < (insertParam d k v).length := by
  cases d with
  | nil => simp [insertParam]
  | cons hd tl =>
    obtain ⟨a, b⟩ := hd
    by_cases ha : a = k <;> simp [insertParam, ha]

theorem foldl_insert_length_pos (l : List (String × JVal)) :
    ∀ acc : Params, 0 < acc.length →
      0 < (l.foldl (fun d kv => insertParam d kv.1 kv.2) acc).length := by
  induction l with
  | nil => intro acc h; simpa using h
  | cons hd tl ih =>
    intro acc _
    exact ih (insertParam acc hd.1 hd.2) (insertParam_length_pos acc hd.1 hd.2)

theorem toDict_length_pos (l : List (String × JVal)) (h : l ≠ []) :
    0 < (toDict l).length := by
  cases l with
  | nil => exact absurd rfl h
  | cons hd tl =>
    exact foldl_insert_length_pos tl (insertParam [] hd.1 hd.2)
      (insertParam_length_pos [] hd.1 hd.2)

/-! ## Association-list and scan lemmas -/

theorem lookupParam_insertParam_self (d : Params) (k : String) (v : JVal) :
    lookupParam (insertParam d k v) k = some v := by
  induction d with
  | nil => simp [insertParam, lookupParam]
  | cons hd tl ih =>
    obtain ⟨a, b⟩ := hd
    by_cases ha : a = k
    · simp [insertParam, ha, lookupParam]
    · simp [insertParam, ha, lookupParam, ih]

theorem lookupParam_insertParam_ne (d : Params) (k : String) (v : JVal)
    (q : String) (h : q ≠ k) :
    lookupParam (insertParam d k v) q = lookupParam d q := by
  have hkq : ¬ k = q := fun hq => h hq.symm
  induction d with
  | nil => simp [insertParam, lookupParam, hkq]
  | cons hd tl ih =>
    obtain ⟨a, b⟩ := hd
    by_cases ha : a = k
    · subst ha
      simp [insertParam, lookupParam, hkq]
    · by_cases haq : a = q
      · simp [insertParam, ha, lookupParam, haq, hkq, h]
      · simp [insertParam, ha, lookupParam, haq, ih]

theorem lookupParam_insertParam_isSome (d : Params) (k : String) (v : JVal)
    (q : String) (h : (lookupParam d q).isSome) :
    (lookupParam (insertParam d k v) q).isSome := by
  by_cases hq : q = k
  · subst hq
    simp [lookupParam_insertParam_self]
  · simpa [lookupParam_insertParam_ne d k v q hq] using h

theorem mem_insertParam_val (d : Params) (k : String) (v : JVal)
    (q : String) (w : JVal) (h : (q, w) ∈ insertParam d k v) :
    (q, w) ∈ d ∨ w = v := by
  induction d with
  | nil =>
    simp [insertParam] at h
    exact Or.inr h.2
  | cons hd tl ih =>
    obtain ⟨a, b⟩ := hd
    by_cases ha : a = k
    · simp only [insertParam, ha, if_true] at h
      rcases List.mem_cons.mp h with h' | h'
      · exact Or.inr (congrArg Prod.snd h')
      · exact Or.inl (List.mem_cons_of_mem _ h')
    · simp only [insertParam, ha, if_false] at h
      rcases List.mem_cons.mp h with h' | h'
      · exact Or.inl (h' ▸ List.mem_cons_self _ _)
      · rcases ih h' with h'' | h''
        · exact Or.inl (List.mem_cons_of_mem _ h'')
        · exact Or.inr h''

theorem skipPresent_eq_nil (params : Params) (pending : List String)
    (h : skipPresent params pending = []) :
    ∀ p ∈ pending, (lookupParam params p).isSome := by
  induction pending with
  | nil => simp
  | cons q rest ih =>
    by_cases hq : (lookupParam params q).isSome
    · intro p hp
      rcases List.mem_cons.mp hp with h' | h'
      · exact h' ▸ hq
      · exact ih (by simpa [skipPresent, hq] using h) p h'
    · simp [skipPresent, hq] at h

theorem skipPresent_mem (params : Params) (pending : List String) (q : String)
    (hq : q ∈ pending) :
    (lookupParam params q).isSome ∨ q ∈ skipPresent params pending := by
  induction pending with
  | nil => simp at hq
  | cons p rest ih =>
    by_cases hp : (lookupParam params p).isSome
    · rcases List.mem_cons.mp hq with h' | h'
      · exact Or.inl (h' ▸ hp)
      · rcases ih h' with h'' | h''
        · exact Or.inl h''
        · exact Or.inr (by simpa [skipPresent, hp] using h'')
    · rcases List.mem_cons.mp hq with h' | h'
      · exact Or.inr (by simp [skipPresent, hp, h'])
      · exact Or.inr (by simp [skipPresent, hp]; exact Or.inr h')

/-! ## Collection-session lemmas -/

theorem collectLoop_complete_spec (oracle : ParamOracle) :
    ∀ (inputs : List String) (params : Params) (pending : List String)
      (calls : Nat) (tr : List Step) (res : Params) (c : Nat),
      collectLoop oracle inputs params pending calls = (tr, some (res, c)) →
      (∀ q, (lookupParam params q).isSome → (lookupParam res q).isSome) ∧
      (∀ q ∈ pending, (lookupParam res q).isSome) := by
  intro inputs
  induction inputs with
  | nil =>
    intro params pending calls tr res c h
    cases hsp : skipPresent params pending with
    | nil =>
      rw [collectLoop, hsp] at h
      simp at h
      obtain ⟨-, hres, -⟩ := h
      subst hres
      exact ⟨fun q hq => hq, fun q hq => skipPresent_eq_nil params pending hsp q hq⟩
    | cons p rest =>
      rw [collectLoop, hsp] at h
      simp at h
  | cons input is ih =>
    intro params pending calls tr res c h
    cases hsp : skipPresent params pending with
    | nil =>
      rw [collectLoop, hsp] at h
      simp at h
      obtain ⟨-, hres, -⟩ := h
      subst hres
      exact ⟨fun q hq => hq, fun q hq => skipPresent_eq_nil params pending hsp q hq⟩
    | cons p rest =>
      rw [collectLoop, hsp] at h
      simp only [] at h
      cases hor : oracle (calls + 1) p (pyStrip input) with
      | none =>
        rw [hor] at h
        simp at h
        obtain ⟨-, h2⟩ := h
        have hpair : collectLoop oracle is params (p :: rest) (calls + 1) =
            ((collectLoop oracle is params (p :: rest) (calls + 1)).1, some (res, c)) := by
          rw [← h2]
        have hih := ih params (p :: rest) (calls + 1) _ res c hpair
        refine ⟨hih.1, fun q hq => ?_⟩
        rcases skipPresent_mem params pending q hq with h' | h'
        · exact hih.1 q h'
        · exact hih.2 q (hsp ▸ h')
      | some r =>
        rw [hor] at h
        simp only [] at h
        by_cases hr : r = emptyMarker
        · rw [if_pos hr] at h
          simp at h
          obtain ⟨-, h2⟩ := h
          have hpair : collectLoop oracle is params (p :: rest) (calls + 1) =
              ((collectLoop oracle is params (p :: rest) (calls + 1)).1, some (res, c)) := by
            rw [← h2]
          have hih := ih params (p :: rest) (calls + 1) _ res c hpair
          refine ⟨hih.1, fun q hq => ?_⟩
          rcases skipPresent_mem params pending q hq with h' | h'
          · exact hih.1 q h'
          · exact hih.2 q (hsp ▸ h')
        · rw [if_neg hr] at h
          simp at h
          obtain ⟨-, h2⟩ := h
          have hpair : collectLoop oracle is (insertParam params p (JVal.str r)) rest (calls + 1) =
              ((collectLoop oracle is (insertParam params p (JVal.str r)) rest (calls + 1)).1,
                some (res, c)) := by
            rw [← h2]
          have hih := ih (insertParam params p (JVal.str r)) rest (calls + 1) _ res c hpair
          have hparams : ∀ q, (lookupParam params q).isSome → (lookupParam res q).isSome :=
            fun q hq => hih.1 q (lookupParam_insertParam_isSome params p (JVal.str r) q hq)
          refine ⟨hparams, fun q hq => ?_⟩
          rcases skipPresent_mem params pending q hq with h' | h'
          · exact hparams q h'
          · rw [hsp] at h'
            rcases List.mem_cons.mp h' with h'' | h''
            · subst h''
              exact hih.1 q (by simp [lookupParam_insertParam_self])
            · exact hih.2 q h''

theorem collectLoop_no_null (oracle : ParamOracle) :
    ∀ (inputs : List String) (params : Params) (pending : List String)
      (calls : Nat) (tr : List Step) (res : Params) (c : Nat),
      (∀ q w, (q, w) ∈ params → w ≠ JVal.null) →
      collectLoop oracle inputs params pending calls = (tr, some (res, c)) →
      ∀ q w, (q, w) ∈ res → w ≠ JVal.null := by
  intro inputs
  induction inputs with
  | nil =>
    intro params pending calls tr res c hparams h
    cases hsp : skipPresent params pending with
    | nil =>
      rw [collectLoop, hsp] at h
      simp at h
      obtain ⟨-, hres, -⟩ := h
      subst hres
      exact hparams
    | cons p rest =>
      rw [collectLoop, hsp] at h
      simp at h
  | cons input is ih =>
    intro params pending calls tr res c hparams h
    cases hsp : skipPresent params pending with
    | nil =>
      rw [collectLoop, hsp] at h
      simp at h
      obtain ⟨-, hres, -⟩ := h
      subst hres
      exact hparams
    | cons p rest =>
      rw [collectLoop, hsp] at h
      simp only [] at h
      cases hor : oracle (calls + 1) p (pyStrip input) with
      | none =>
        rw [hor] at h
        simp at h
        obtain ⟨-, h2⟩ := h
        exact ih params (p :: rest) (calls + 1) _ res c hparams (by rw [← h2])
      | some r =>
        rw [hor] at h
        simp only [] at h
        by_cases hr : r = emptyMarker
        · rw [if_pos hr] at h
          simp at h
          obtain ⟨-, h2⟩ := h
          exact ih params (p :: rest) (calls + 1) _ res c hparams (by rw [← h2])
        · rw [if_neg hr] at h
          simp at h
          obtain ⟨-, h2⟩ := h
          refine ih (insertParam params p (JVal.str r)) rest (calls + 1) _ res c
            (fun q w hqw => ?_) (by rw [← h2])
          rcases mem_insertParam_val params p (JVal.str r) q w hqw with h' | h'
          · exact hparams q w h'
          · simp [h']

theorem remove_null_params_no_null (d : Params) :
    ∀ q w, (q, w) ∈ remove_null_params d → w ≠ JVal.null := by
  intro q w h
  have := List.of_mem_filter h
  intro hw
  subst hw
  simp at this

theorem collectLoop_all_empty_blocked (oracle : ParamOracle) (p : String)
    (hor : ∀ n q, oracle n q "" = none) :
    ∀ (inputs : List String) (params : Params) (rest : List String) (calls : Nat),
      (∀ i ∈ inputs, i = "") →
      (lookupParam params p).isSome = false →
      (collectLoop oracle inputs params (p :: rest) calls).2 = none ∧
      Step.prompt (required_param_prompt p) ∈
        (collectLoop oracle inputs params (p :: rest) calls).1 := by
  intro inputs
  induction inputs with
  | nil =>
    intro params rest calls _ hp
    rw [collectLoop]
    simp [skipPresent, hp]
  | cons input is ih =>
    intro params rest calls hin hp
    have hinput : input = "" := hin input (List.mem_cons_self _ _)
    subst hinput
    have hstrip : pyStrip "" = "" := rfl
    rw [collectLoop]
    have hsp : skipPresent params (p :: rest) = p :: rest := by
      simp [skipPresent, hp]
    rw [hsp]
    simp only [hstrip, hor (calls + 1) p]
    have hih := ih params rest (calls + 1) (fun i hi => hin i (List.mem_cons_of_mem _ hi)) hp
    exact ⟨hih.1, List.mem_cons_self _ _⟩

/-! ## Claim theorems: the collection session -/

/-- C1 (amended): when the interactive parameter-collection session of
    `extract_parameters_with_llm` terminates normally (returns its result
    mapping), every field of the schema's required list is present in the
    mapping.  The original claim's further demand that every such value be
    non-empty does not hold (see the counterexample): the code only checks
    presence. -/
theorem extract_complete_required_present (oneShot : Except String (Option Params))
    (oracle : ParamOracle) (required : List String) (inputs : List String)
    (tr : List Step) (res : Params) (c : Nat)
    (h : extract_parameters_with_llm oneShot oracle required true inputs =
      .ok (tr, some (res, c))) :
    ∀ p ∈ required, (lookupParam res p).isSome := by
  cases oneShot with
  | error e => simp [extract_parameters_with_llm] at h
  | ok parsed =>
    simp only [extract_parameters_with_llm, Bool.not_true, Bool.false_eq_true, if_false,
      Except.ok.injEq] at h
    exact (collectLoop_complete_spec oracle inputs _ required 1 tr res c h).2

/-- C1 counterexample: a session that completes with the required field
    `originLocationCode` present but bound to the empty string.  The
    one-shot extraction produced `{"originLocationCode": ""}`; the empty
    string is not null, survives the null filter, and the required scan
    checks presence only. -/
theorem extract_complete_with_empty_value :
    extract_parameters_with_llm (.ok (some [("originLocationCode", JVal.str "")]))
      (fun _ _ _ => none) ["originLocationCode"] true [] =
      .ok ([], some ([("originLocationCode", JVal.str "")], 1)) ∧
    value_nonempty (JVal.str "") = false := ⟨rfl, rfl⟩

/-- Witness for the amended C1 at a concrete completed session. -/
theorem extract_complete_required_present_witness :
    (lookupParam [("originLocationCode", JVal.str "JFK")] "originLocationCode").isSome = true :=
  extract_complete_required_present (.ok (some [("originLocationCode", JVal.str "JFK")]))
    (fun _ _ _ => none) ["originLocationCode"] [] [] [("originLocationCode", JVal.str "JFK")] 1
    rfl "originLocationCode" (List.mem_singleton.mpr rfl)

/-- C2: in batch mode (`interactive_mode=False`) the session returns right
    after the one-shot extraction: the trace of yielded steps is empty —
    no `SuspensionPoint` is ever emitted and the generator never blocks on
    user input — whatever the query, the schema's required list, the
    extraction outcome and the available inputs. -/
theorem extract_batch_never_suspends (oneShot : Except String (Option Params))
    (oracle : ParamOracle) (required : List String) (inputs : List String)
    (tr : List Step) (res : Option (Params × Nat))
    (h : extract_parameters_with_llm oneShot oracle required false inputs = .ok (tr, res)) :
    tr = [] ∧ res.isSome = true := by
  cases oneShot with
  | error e => simp [extract_parameters_with_llm] at h
  | ok parsed =>
    simp [extract_parameters_with_llm] at h
    exact ⟨h.1, by rw [← h.2]; rfl⟩

/-- Witness for C2: batch run over a malformed one-shot response with a
    missing required field still yields an empty trace. -/
theorem extract_batch_never_suspends_witness :
    ([] : List Step) = [] ∧
    (some (([("adults", JVal.num 1), ("max", JVal.num 5)] : Params), 1) :
      Option (Params × Nat)).isSome = true :=
  extract_batch_never_suspends (.ok none) (fun _ _ _ => none) ["originLocationCode"]
    ["ignored"] [] _ rfl

/-- C3 (amended): the resumption path has no empty-string guard — an empty
    resumption value is stripped and passed to the scoped extractor like
    any other input, and the session stays blocked re-emitting prompts
    precisely when those extraction attempts fail (extractor answers
    `None` or the literal `"''"`).  So: against an extractor that fails on
    empty input, a session with its required field missing never completes
    on empty resumptions and re-emits the prompt. -/
theorem extract_resume_empty_blocked (oracle : ParamOracle) (p : String)
    (inputs : List String) (tr : List Step) (res : Option (Params × Nat))
    (hor : ∀ n q, oracle n q "" = none)
    (hin : ∀ i ∈ inputs, i = "")
    (h : extract_parameters_with_llm (.ok (some [])) oracle [p] true inputs = .ok (tr, res)) :
    res = none ∧ Step.prompt (required_param_prompt p) ∈ tr := by
  simp only [extract_parameters_with_llm, Bool.not_true, Bool.false_eq_true, if_false,
    Except.ok.injEq] at h
  have hb := collectLoop_all_empty_blocked oracle p hor inputs [] [] 1 hin rfl
  rw [show remove_null_params [] = [] from rfl] at h
  rw [h] at hb
  exact ⟨hb.1, hb.2⟩

/-- C3 counterexample: resuming a suspended session with the empty string
    CAN transition it to COMPLETE, with the empty string stored as the
    field value: the stripped empty answer is handed to the extractor
    (here echoing its input) and any result other than `None`/`"''"` —
    the empty string included — is accepted. -/
theorem extract_resume_empty_completes :
    extract_parameters_with_llm (.ok (some [])) (fun _ _ s => some s)
      ["originLocationCode"] true [""] =
      .ok ([Step.prompt (required_param_prompt "originLocationCode")],
        some ([("originLocationCode", JVal.str "")], 2)) := rfl

/-- Witness for the amended C3 at a concrete empty-rejecting extractor. -/
theorem extract_resume_empty_blocked_witness :
    (none : Option (Params × Nat)) = none ∧
    Step.prompt (required_param_prompt "originLocationCode") ∈
      [Step.prompt (required_param_prompt "originLocationCode"),
       Step.message (extraction_failed_message "originLocationCode"),
       Step.prompt (required_param_prompt "originLocationCode")] :=
  extract_resume_empty_blocked (fun _ _ s => if s = "" then none else some s)
    "originLocationCode" [""] _ _ (fun _ _ => rfl)
    (fun _ hi => List.mem_singleton.mp hi) rfl

/-- C6 (amended): in interactive mode every field whose one-shot value is
    null is dropped before the required-field scan, and re-prompted values
    are stored as strings, so a completed interactive session's mapping
    never contains an explicit null.  In batch mode (and for empty-string
    values in either mode) nothing is dropped — see the counterexample. -/
theorem extract_interactive_no_null (oneShot : Except String (Option Params))
    (oracle : ParamOracle) (required : List String) (inputs : List String)
    (tr : List Step) (res : Params) (c : Nat)
    (h : extract_parameters_with_llm oneShot oracle required true inputs =
      .ok (tr, some (res, c))) :
    ∀ q w, (q, w) ∈ res → w ≠ JVal.null := by
  cases oneShot with
  | error e => simp [extract_parameters_with_llm] at h
  | ok parsed =>
    simp only [extract_parameters_with_llm, Bool.not_true, Bool.false_eq_true, if_false,
      Except.ok.injEq] at h
    exact collectLoop_no_null oracle inputs _ required 1 tr res c
      (remove_null_params_no_null _) h

/-- C6 counterexample: the claim fails in both directions it quantifies
    over — a batch-mode session returns an explicit null untouched (the
    null filter sits after the batch early return), and an interactive
    session keeps a field extracted as the empty string (only nulls are
    dropped). -/
theorem extract_null_and_empty_retained :
    extract_parameters_with_llm (.ok (some [("x", JVal.null)])) (fun _ _ _ => none)
      [] false [] = .ok ([], some ([("x", JVal.null)], 1)) ∧
    extract_parameters_with_llm (.ok (some [("x", JVal.str "")])) (fun _ _ _ => none)
      [] true [] = .ok ([], some ([("x", JVal.str "")], 1)) := ⟨rfl, rfl⟩

/-- Witness for the amended C6 at a concrete interactive session whose
    one-shot extraction contained a null field. -/
theorem extract_interactive_no_null_witness : JVal.str "JFK" ≠ JVal.null :=
  extract_interactive_no_null
    (.ok (some [("a", JVal.str "JFK"), ("b", JVal.null)])) (fun _ _ _ => none) [] []
    [] [("a", JVal.str "JFK")] 1 rfl "a" (JVal.str "JFK") (List.mem_singleton.mpr rfl)

/-- C7 (amended): a one-shot response that is not valid JSON never raises —
    but it is replaced by the default mapping `{"adults": 1, "max": 5}`,
    not by an empty result; and a failure of the underlying LLM call
    itself propagates to the caller as a hard error, because the source's
    `try` guards only `json.loads`, not `chain.invoke`. -/
theorem extract_error_handling (oracle : ParamOracle) (required : List String)
    (inputs : List String) (mode : Bool) :
    (∀ parsed, ∃ out,
      extract_parameters_with_llm (.ok parsed) oracle required mode inputs = .ok out) ∧
    extract_parameters_with_llm (.ok none) oracle required false inputs =
      .ok ([], some (default_extracted_params, 1)) ∧
    (∀ e, extract_parameters_with_llm (.error e) oracle required mode inputs = .error e) := by
  refine ⟨fun parsed => ?_, rfl, fun e => rfl⟩
  cases mode <;> exact ⟨_, rfl⟩

/-- C7 counterexample: an unreachable text-understanding service raises a
    hard error out of the extraction step, and malformed JSON yields the
    `{"adults": 1, "max": 5}` default rather than an empty result. -/
theorem extract_service_failure_raises :
    extract_parameters_with_llm (.error "LLM service unreachable") (fun _ _ _ => none)
      ["originLocationCode"] true [] = .error "LLM service unreachable" ∧
    extract_parameters_with_llm (.ok none) (fun _ _ _ => none) [] false [] =
      .ok ([], some ([("adults", JVal.num 1), ("max", JVal.num 5)], 1)) := ⟨rfl, rfl⟩

/-- C9: the email validator accepts a string iff it contains at least one
    `@` character and at least one `.` character; it is a pure Boolean
    function of its argument, hence deterministic. -/
theorem email_validator_iff (e : String) :
    email_validator e = true ↔ ('@' ∈ e.data ∧ '.' ∈ e.data) := by
  simp [email_validator]

/-! ## Claim theorem: the evaluation comparison (C10) -/

/-- C10: `compare_parameters` is reflexive.  Flattening is a function, so
    equal inputs flatten to equal dictionaries; whenever flattening the
    baseline succeeds, comparing an object with itself scores exactly 100
    when the flattening has at least one leaf key, and 0 when it has
    none. -/
theorem compare_parameters_self (b : JVal) (l : List (String × JVal))
    (h : flatten_json b "" = .ok l) :
    compare_parameters b b = .ok (if l.isEmpty then 0 else 100) := by
  have hnd := keysNodup_toDict l
  have hfil : ((toDict l).filter (fun kv =>
      JVal.beq ((lookupParam (toDict l) kv.1).getD missingSentinel) kv.2)) = toDict l := by
    apply List.filter_eq_self.mpr
    intro kv hkv
    have hl : lookupParam (toDict l) kv.1 = some kv.2 :=
      lookupParam_of_mem (toDict l) kv.1 kv.2 hnd (by rwa [Prod.mk.eta])
    rw [hl]
    simpa using JVal.beq_refl kv.2
  cases l with
  | nil =>
    simp [compare_parameters, h, toDict]
  | cons hd tl =>
    have hpos := toDict_length_pos (hd :: tl) (by simp)
    have hne : (((toDict (hd :: tl)).length : ℚ)) ≠ 0 :=
      Nat.cast_ne_zero.mpr (Nat.pos_iff_ne_zero.mp hpos)
    simp only [compare_parameters, h, hfil, List.isEmpty_cons, if_false, hpos, if_true,
      Bool.false_eq_true]
    rw [div_self hne]
    simp

/-- Witness for C10 at a concrete nested object with two leaf keys. -/
theorem compare_parameters_self_witness :
    compare_parameters (JVal.obj [("a", JVal.num 1), ("b", JVal.obj [("c", JVal.str "x")])])
      (JVal.obj [("a", JVal.num 1), ("b", JVal.obj [("c", JVal.str "x")])]) = .ok 100 := by
  have h := compare_parameters_self
    (JVal.obj [("a", JVal.num 1), ("b", JVal.obj [("c", JVal.str "x")])])
    [("a", JVal.num 1), ("b.c", JVal.str "x")] rfl
  simpa using h

/-! ## Claim theorem: traveler collection (C8) -/

theorem add_traveler_loop_extends (interactions : List (String × Params)) :
    ∀ acc : List Params, ∃ t, add_traveler_loop acc interactions = acc ++ t := by
  induction interactions with
  | nil => intro acc; exact ⟨[], by simp [add_traveler_loop]⟩
  | cons hd tl ih =>
    intro acc
    obtain ⟨ans, details⟩ := hd
    by_cases hy : pyLower ans ≠ "yes"
    · exact ⟨[], by simp [add_traveler_loop, hy]⟩
    · obtain ⟨t, ht⟩ := ih
        (acc ++ [insertParam details "id" (JVal.str (toString (acc.length + 1)))])
      refine ⟨insertParam details "id" (JVal.str (toString (acc.length + 1))) :: t, ?_⟩
      simp only [add_traveler_loop, hy, if_false]
      simpa using ht

theorem add_traveler_loop_take (interactions : List (String × Params)) :
    ∀ (k : Nat) (acc : List Params), ∃ t,
      add_traveler_loop acc interactions =
        add_traveler_loop acc (interactions.take k) ++ t := by
  induction interactions with
  | nil =>
    intro k acc
    exact ⟨[], by simp [add_traveler_loop]⟩
  | cons hd tl ih =>
    intro k acc
    obtain ⟨ans, details⟩ := hd
    cases k with
    | zero =>
      simpa [add_traveler_loop] using add_traveler_loop_extends ((ans, details) :: tl) acc
    | succ k' =>
      by_cases hy : pyLower ans ≠ "yes"
      · exact ⟨[], by simp [add_traveler_loop, hy]⟩
      · obtain ⟨t, ht⟩ := ih k'
          (acc ++ [insertParam details "id" (JVal.str (toString (acc.length + 1)))])
        refine ⟨t, ?_⟩
        simp only [List.take_succ_cons, add_traveler_loop, hy, if_false]
        exact ht

theorem add_traveler_loop_ids (interactions : List (String × Params)) :
    ∀ acc : List Params,
      (∀ k, k < acc.length →
        (acc.get? k).bind (fun t => lookupParam t "id") = some (JVal.str (toString (k + 1)))) →
      ∀ k, k < (add_traveler_loop acc interactions).length →
        ((add_traveler_loop acc interactions).get? k).bind (fun t => lookupParam t "id") =
          some (JVal.str (toString (k + 1))) := by
  induction interactions with
  | nil =>
    intro acc h
    simpa [add_traveler_loop] using h
  | cons hd tl ih =>
    intro acc h
    obtain ⟨ans, details⟩ := hd
    by_cases hy : pyLower ans ≠ "yes"
    · simpa [add_traveler_loop, hy] using h
    · simp only [add_traveler_loop, hy, if_false]
      apply ih
      intro k hk
      rw [List.length_append, List.length_singleton] at hk
      by_cases hlt : k < acc.length
      · rw [List.get?_append hlt]
        exact h k hlt
      · have hk' : k = acc.length := by omega
        subst hk'
        rw [List.get?_concat_length]
        simp [lookupParam_insertParam_self]

/-- C8: over one booking request the traveler list only grows (the list
    after any number of add-another rounds is a prefix of the final list,
    witnessed by an explicit suffix), and every traveler profile's `id` is
    the string of its 1-based position: after collecting `N` travelers the
    ids are exactly "1", ..., "N" in list order. -/
theorem collect_travelers_ids (first : Params)
    (interactions : List (String × Params)) (mode : Bool) :
    (∀ k, k < (collect_travelers first interactions mode).length →
      ((collect_travelers first interactions mode).get? k).bind (fun t => lookupParam t "id") =
        some (JVal.str (toString (k + 1)))) ∧
    (∀ k, ∃ t, collect_travelers first interactions true =
      collect_travelers first (interactions.take k) true ++ t) := by
  have hbase : ∀ k, k < ([insertParam first "id" (JVal.str "1")] : List Params).length →
      (([insertParam first "id" (JVal.str "1")] : List Params).get? k).bind
        (fun t => lookupParam t "id") = some (JVal.str (toString (k + 1))) := by
    intro k hk
    have : k = 0 := by simpa using hk
    subst this
    simp [lookupParam_insertParam_self]
    rfl
  constructor
  · cases mode with
    | false => simpa [collect_travelers] using hbase
    | true =>
      simpa [collect_travelers] using
        add_traveler_loop_ids interactions [insertParam first "id" (JVal.str "1")] hbase
  · intro k
    simpa [collect_travelers] using
      add_traveler_loop_take interactions k [insertParam first "id" (JVal.str "1")]

/-- Witness for C8: two travelers collected in one interactive request
    carry ids "1" and "2", and the one-traveler prefix extends to the
    final list. -/
theorem collect_travelers_ids_witness :
    ((collect_travelers [("name", JVal.str "JOHN")]
        [("yes", [("name", JVal.str "JANE")])] true).get? 1).bind
      (fun t => lookupParam t "id") = some (JVal.str "2") :=
  (collect_travelers_ids [("name", JVal.str "JOHN")]
    [("yes", [("name", JVal.str "JANE")])] true).1 1 (by decide)

/-! ## Claim theorems: booking legs and orchestrator (C4, C5) -/

theorem run_itinerary_ok (creds : Creds) (env : ItineraryApiEnv)
    (params : BookingParams) (h : creds.missing = false) :
    ∃ s n, run_itinerary creds env params = (.ok s, n) := by
  unfold run_itinerary
  rw [h]
  simp only [Bool.false_eq_true, if_false]
  cases env.token_response with
  | error e => exact ⟨"", 1, rfl⟩
  | ok tokenJson =>
    try simp only []
    cases pyGetItem tokenJson "access_token" with
    | error ke => exact ⟨"", 1, rfl⟩
    | ok tok =>
      try simp only []
      cases env.cities_response with
      | error e => exact ⟨"", 2, rfl⟩
      | ok coords =>
        try simp only []
        cases dataFirstMissingKey coords "geoCode" with
        | error e => exact ⟨"", 2, rfl⟩
        | ok b =>
          try simp only []
          cases b with
          | true => exact ⟨itineraryLlm env, 2, rfl⟩
          | false =>
            cases env.activities_response with
            | error e => exact ⟨"", 3, rfl⟩
            | ok act =>
              try simp only []
              cases missingOrEmpty act "data" with
              | error e => exact ⟨"", 3, rfl⟩
              | ok b2 => exact ⟨itineraryLlm env, 3, rfl⟩

/-- C5 (amended): with the vendor credentials absent every leg fails fast
    with zero HTTP requests attempted; the flight and hotel legs return
    the descriptive `{"error": "Missing credentials for Amadeus API."}`
    result, while the itinerary leg raises a `ValueError` (propagated to
    its caller) instead of returning an error result. -/
theorem legs_missing_credentials (creds : Creds) (fEnv : FlightApiEnv)
    (hEnv : HotelApiEnv) (iEnv : ItineraryApiEnv) (pf ph : String)
    (params : BookingParams) (h : creds.missing = true) :
    run_flight_booking creds fEnv pf params = (.ok missingCredsError, 0) ∧
    run_hotel_booking creds hEnv ph params = (.ok missingCredsError, 0) ∧
    run_itinerary creds iEnv params =
      (.error "Amadeus API credentials not found. Set AMADEUS_CLIENT_ID and AMADEUS_CLIENT_SECRET.",
        0) := by
  refine ⟨?_, ?_, ?_⟩
  · unfold run_flight_booking
    rw [h]
    simp
  · unfold run_hotel_booking
    rw [h]
    simp
  · unfold run_itinerary
    rw [h]
    simp

/-- C5 counterexample: with credentials absent the itinerary leg performs
    no vendor call but does not return a descriptive error result — it
    raises (`ValueError`, modelled as `Except.error`), so the claim's
    "returns a descriptive error result" fails for the itinerary leg. -/
theorem run_itinerary_missing_creds_raises :
    run_itinerary ⟨none, none⟩
      ⟨.ok JVal.null, .ok JVal.null, .ok JVal.null, .ok ""⟩
      ⟨"JFK", "DEL", "2024-12-20", "2025-01-05", 1, 5, [], "", "", "", ""⟩ =
      (.error "Amadeus API credentials not found. Set AMADEUS_CLIENT_ID and AMADEUS_CLIENT_SECRET.",
        0) := rfl

/-- Witness for the amended C5 at concrete empty credentials. -/
theorem legs_missing_credentials_witness :
    run_flight_booking ⟨none, some "secret"⟩
      ⟨.ok JVal.null, .ok JVal.null, .ok JVal.null, .ok JVal.null⟩ ""
      ⟨"", "", "", "", 1, 5, [], "", "", "", ""⟩ = (.ok missingCredsError, 0) ∧
    run_hotel_booking ⟨none, some "secret"⟩
      ⟨.ok JVal.null, .ok JVal.null, .ok JVal.null, .ok JVal.null⟩ ""
      ⟨"", "", "", "", 1, 5, [], "", "", "", ""⟩ = (.ok missingCredsError, 0) ∧
    run_itinerary ⟨none, some "secret"⟩
      ⟨.ok JVal.null, .ok JVal.null, .ok JVal.null, .ok ""⟩
      ⟨"", "", "", "", 1, 5, [], "", "", "", ""⟩ =
      (.error "Amadeus API credentials not found. Set AMADEUS_CLIENT_ID and AMADEUS_CLIENT_SECRET.",
        0) :=
  legs_missing_credentials ⟨none, some "secret"⟩
    ⟨.ok JVal.null, .ok JVal.null, .ok JVal.null, .ok JVal.null⟩
    ⟨.ok JVal.null, .ok JVal.null, .ok JVal.null, .ok JVal.null⟩
    ⟨.ok JVal.null, .ok JVal.null, .ok JVal.null, .ok ""⟩ "" ""
    ⟨"", "", "", "", 1, 5, [], "", "", "", ""⟩ rfl

/-! ## Per-call failure lemmas for the booking legs (C4) -/

theorem exceptMapM_ok_length {α β : Type} (f : α → Except String β) :
    ∀ (l : List α) (l' : List β), exceptMapM f l = .ok l' → l'.length = l.length := by
  intro l
  induction l with
  | nil =>
    intro l' h
    simp only [exceptMapM, Except.ok.injEq] at h
    simp [← h]
  | cons x xs ih =>
    intro l' h
    simp only [exceptMapM] at h
    cases hfx : f x with
    | error e => rw [hfx] at h; simp at h
    | ok y =>
      rw [hfx] at h
      simp only [] at h
      cases hxs : exceptMapM f xs with
      | error e => rw [hxs] at h; simp at h
      | ok ys =>
        rw [hxs] at h
        simp only [Except.ok.injEq] at h
        simp [← h, ih ys hxs]

theorem parse_choice_ge_one (s : String) (n : Nat) : 1 ≤ parse_choice s n := by
  unfold parse_choice
  simp only []
  split_ifs with h1 h2
  · exact le_refl 1
  · exact le_refl 1
  · simp only [Bool.or_eq_true, decide_eq_true_eq, not_or] at h2
    omega

theorem parse_choice_le (s : String) (n : Nat) (hn : 1 ≤ n) : parse_choice s n ≤ n := by
  unfold parse_choice
  simp only []
  split_ifs with h1 h2
  · exact hn
  · exact hn
  · simp only [Bool.or_eq_true, decide_eq_true_eq, not_or] at h2
    omega

theorem pyIndex_ok_of_lt (xs : List JVal) (i : Int) (h0 : 0 ≤ i)
    (hlt : i.toNat < xs.length) : ∃ v, pyIndex (.arr xs) i = .ok v := by
  have hneg : ¬ i < 0 := by omega
  have hg := List.get?_eq_get hlt
  refine ⟨xs.get ⟨i.toNat, hlt⟩, ?_⟩
  simp only [pyIndex]
  rw [if_neg hneg, hg]
  simp only []
  rw [if_pos h0]

theorem missingOrEmpty_false_len (j : JVal) (key : String) (xs : List JVal)
    (hmo : missingOrEmpty j key = .ok false)
    (hget : pyGetItem j key = .ok (.arr xs)) : xs ≠ [] := by
  intro hnil
  subst hnil
  unfold missingOrEmpty at hmo
  cases hpc : pyContains j key with
  | error e => rw [hpc] at hmo; simp at hmo
  | ok b =>
    rw [hpc] at hmo
    cases b with
    | false => simp at hmo
    | true =>
      simp only [Bool.not_true, Bool.false_eq_true, if_false] at hmo
      rw [hget] at hmo
      simp [pyLen] at hmo

/-- C4: a network failure (`requests.RequestException`) of any one
    external leg call never aborts the other legs and never escapes as a
    global exception.  The conjuncts quantify over the failure site: (1-4)
    a network failure at the flight leg's token, search, pricing or order
    call — at the point execution reaches that call — makes `_run` return
    normally with the leg-scoped error dict; (5-8) the same for the hotel
    leg's token, hotels-by-city search, offer search and order calls;
    (9) whenever the flight and hotel legs return results (error dicts or
    not), the orchestrator still runs all three legs and returns the
    partial result record containing both legs' results plus an itinerary,
    never a global exception (the itinerary leg cannot raise once
    credentials are present, by `run_itinerary_ok`); (10) each error dict
    carries the leg-scoped `error` entry with the exception text. -/
theorem initiate_bookings_leg_failure_contained :
    (∀ (creds : Creds) (fEnv : FlightApiEnv) (pf : String) (params : BookingParams)
       (e : String),
      creds.missing = false →
      fEnv.token_response = .error e →
      run_flight_booking creds fEnv pf params = (.ok (flightErr e 1 0), 1)) ∧
    (∀ (creds : Creds) (fEnv : FlightApiEnv) (pf : String) (params : BookingParams)
       (tk tok : JVal) (e : String),
      creds.missing = false →
      fEnv.token_response = .ok tk →
      pyGetItem tk "access_token" = .ok tok →
      fEnv.offers_response = .error e →
      run_flight_booking creds fEnv pf params = (.ok (flightErr e 2 1), 2)) ∧
    (∀ (creds : Creds) (fEnv : FlightApiEnv) (pf : String) (params : BookingParams)
       (tk tok results : JVal) (flightData : List JVal) (dicts mappings : JVal)
       (details : List JVal) (e : String),
      creds.missing = false →
      fEnv.token_response = .ok tk →
      pyGetItem tk "access_token" = .ok tok →
      fEnv.offers_response = .ok results →
      missingOrEmpty results "data" = .ok false →
      pyGetItem results "data" = .ok (.arr flightData) →
      pyGetItem results "dictionaries" = .ok dicts →
      pyGetItem dicts "carriers" = .ok mappings →
      exceptMapM (build_flight_detail mappings) flightData = .ok details →
      fEnv.pricing_response = .error e →
      run_flight_booking creds fEnv pf params = (.ok (flightErr e 3 2), 3)) ∧
    (∀ (creds : Creds) (fEnv : FlightApiEnv) (pf : String) (params : BookingParams)
       (tk tok results : JVal) (flightData : List JVal) (dicts mappings : JVal)
       (details : List JVal) (pricing_data pdd fo priced : JVal) (e : String),
      creds.missing = false →
      fEnv.token_response = .ok tk →
      pyGetItem tk "access_token" = .ok tok →
      fEnv.offers_response = .ok results →
      missingOrEmpty results "data" = .ok false →
      pyGetItem results "data" = .ok (.arr flightData) →
      pyGetItem results "dictionaries" = .ok dicts →
      pyGetItem dicts "carriers" = .ok mappings →
      exceptMapM (build_flight_detail mappings) flightData = .ok details →
      fEnv.pricing_response = .ok pricing_data →
      pricedOffersMissing pricing_data = .ok false →
      pyGetItem pricing_data "data" = .ok pdd →
      pyGetItem pdd "flightOffers" = .ok fo →
      pyIndex fo 0 = .ok priced →
      fEnv.order_response = .error e →
      run_flight_booking creds fEnv pf params = (.ok (flightErr e 4 3), 4)) ∧
    (∀ (creds : Creds) (hEnv : HotelApiEnv) (ph : String) (params : BookingParams)
       (e : String),
      creds.missing = false →
      hEnv.token_response = .error e →
      run_hotel_booking creds hEnv ph params = (.ok (hotelErr e 1 0), 1)) ∧
    (∀ (creds : Creds) (hEnv : HotelApiEnv) (ph : String) (params : BookingParams)
       (tk tok : JVal) (e : String),
      creds.missing = false →
      hEnv.token_response = .ok tk →
      pyGetItem tk "access_token" = .ok tok →
      hEnv.by_city_response = .error e →
      run_hotel_booking creds hEnv ph params = (.ok (hotelErr e 2 1), 2)) ∧
    (∀ (creds : Creds) (hEnv : HotelApiEnv) (ph : String) (params : BookingParams)
       (tk tok results : JVal) (hotels0 : List JVal) (ids : List JVal)
       (strs : List String) (e : String),
      creds.missing = false →
      hEnv.token_response = .ok tk →
      pyGetItem tk "access_token" = .ok tok →
      hEnv.by_city_response = .ok results →
      missingOrEmpty results "data" = .ok false →
      pyGetItem results "data" = .ok (.arr hotels0) →
      exceptMapM (fun h => pyGetItem h "hotelId") (hotels0.take 30) = .ok ids →
      exceptMapM (fun v =>
        match v with
        | JVal.str s => Except.ok s
        | _ => Except.error "TypeError: sequence item: expected str") ids = .ok strs →
      hEnv.hotel_offers_response = .error e →
      run_hotel_booking creds hEnv ph params = (.ok (hotelErr e 3 2), 3)) ∧
    (∀ (creds : Creds) (hEnv : HotelApiEnv) (ph : String) (params : BookingParams)
       (tk tok results : JVal) (hotels0 : List JVal) (ids : List JVal)
       (strs : List String) (pricing_data : JVal) (hotels : List JVal)
       (keyed : List (ℚ × JVal)) (top5 : List JVal) (us : List Unit)
       (hchosen hoffers o0 idv : JVal) (gds : List JVal) (e : String),
      creds.missing = false →
      hEnv.token_response = .ok tk →
      pyGetItem tk "access_token" = .ok tok →
      hEnv.by_city_response = .ok results →
      missingOrEmpty results "data" = .ok false →
      pyGetItem results "data" = .ok (.arr hotels0) →
      exceptMapM (fun h => pyGetItem h "hotelId") (hotels0.take 30) = .ok ids →
      exceptMapM (fun v =>
        match v with
        | JVal.str s => Except.ok s
        | _ => Except.error "TypeError: sequence item: expected str") ids = .ok strs →
      hEnv.hotel_offers_response = .ok pricing_data →
      dataFirstMissingKey pricing_data "hotel" = .ok false →
      pyGetItem pricing_data "data" = .ok (.arr hotels) →
      exceptMapM hotelSortKey hotels = .ok keyed →
      ((pySorted (fun a b => decide (a.1 ≤ b.1)) keyed).map Prod.snd).take 5 = top5 →
      exceptMapM displayHotelFields top5 = .ok us →
      top5.get? (parse_choice ph top5.length - 1) = some hchosen →
      pyGetItem hchosen "offers" = .ok hoffers →
      pyIndex hoffers 0 = .ok o0 →
      pyGetItem o0 "id" = .ok idv →
      exceptMapM guest_reference params.travelers_details = .ok gds →
      hEnv.order_response = .error e →
      run_hotel_booking creds hEnv ph params = (.ok (hotelErr e 4 3), 4)) ∧
    (∀ (creds : Creds) (fEnv : FlightApiEnv) (hEnv : HotelApiEnv)
       (iEnv : ItineraryApiEnv) (pf ph : String) (params : BookingParams)
       (fres : JVal) (fn : Nat) (hres : JVal) (hn : Nat),
      creds.missing = false →
      run_flight_booking creds fEnv pf params = (.ok fres, fn) →
      run_hotel_booking creds hEnv ph params = (.ok hres, hn) →
      ∃ s, initiate_bookings_legs creds fEnv hEnv iEnv pf ph params =
        .ok { flight_booking_result := fres
              hotel_booking_result := hres
              itinerary_result := s
              flight_api_calls := counterGet fres "_flight_api_calls"
              flight_api_success := counterGet fres "_flight_api_success"
              hotel_api_calls := counterGet hres "_hotel_api_calls"
              hotel_api_success := counterGet hres "_hotel_api_success" }) ∧
    (∀ (e : String) (calls succ : Nat),
      pyGetItem (flightErr e calls succ) "error" = .ok (JVal.str e) ∧
      pyGetItem (hotelErr e calls succ) "error" = .ok (JVal.str e)) := by
  refine ⟨?_, ?_, ?_, ?_, ?_, ?_, ?_, ?_, ?_, ?_⟩
  · intro creds fEnv pf params e hc ht
    unfold run_flight_booking
    rw [hc]
    simp only [Bool.false_eq_true, if_false]
    rw [ht]
  · intro creds fEnv pf params tk tok e hc ht ha hoff
    unfold run_flight_booking
    rw [hc]
    simp only [Bool.false_eq_true, if_false]
    rw [ht]
    try simp only []
    rw [ha]
    try simp only []
    rw [hoff]
  · intro creds fEnv pf params tk tok results flightData dicts mappings details e
      hc ht ha hoff hmo hdata hdicts hmapp hdetails hpr
    have hlen := exceptMapM_ok_length (build_flight_detail mappings) flightData details hdetails
    have hne : flightData ≠ [] := missingOrEmpty_false_len results "data" flightData hmo hdata
    have hpos : 1 ≤ flightData.length := by
      cases flightData with
      | nil => exact absurd rfl hne
      | cons a l => simp
    have hp1 := parse_choice_ge_one pf details.length
    have hp2 : parse_choice pf details.length ≤ flightData.length := by
      have := parse_choice_le pf details.length (by omega)
      omega
    obtain ⟨offer, hoffer⟩ := pyIndex_ok_of_lt flightData
      ((parse_choice pf details.length : Int) - 1) (by omega) (by omega)
    unfold run_flight_booking
    rw [hc]
    simp only [Bool.false_eq_true, if_false]
    rw [ht]
    try simp only []
    rw [ha]
    try simp only []
    rw [hoff]
    try simp only []
    rw [hmo]
    try simp only []
    rw [hdata]
    try simp only []
    rw [hdicts]
    try simp only []
    rw [hmapp]
    try simp only []
    rw [hdetails]
    try simp only []
    rw [hoffer]
    try simp only []
    rw [hpr]
  · intro creds fEnv pf params tk tok results flightData dicts mappings details
      pricing_data pdd fo priced e
      hc ht ha hoff hmo hdata hdicts hmapp hdetails hpr hpom hpd hfo hp0 horder
    have hlen := exceptMapM_ok_length (build_flight_detail mappings) flightData details hdetails
    have hne : flightData ≠ [] := missingOrEmpty_false_len results "data" flightData hmo hdata
    have hpos : 1 ≤ flightData.length := by
      cases flightData with
      | nil => exact absurd rfl hne
      | cons a l => simp
    have hp1 := parse_choice_ge_one pf details.length
    have hp2 : parse_choice pf details.length ≤ flightData.length := by
      have := parse_choice_le pf details.length (by omega)
      omega
    obtain ⟨offer, hoffer⟩ := pyIndex_ok_of_lt flightData
      ((parse_choice pf details.length : Int) - 1) (by omega) (by omega)
    unfold run_flight_booking
    rw [hc]
    simp only [Bool.false_eq_true, if_false]
    rw [ht]
    try simp only []
    rw [ha]
    try simp only []
    rw [hoff]
    try simp only []
    rw [hmo]
    try simp only []
    rw [hdata]
    try simp only []
    rw [hdicts]
    try simp only []
    rw [hmapp]
    try simp only []
    rw [hdetails]
    try simp only []
    rw [hoffer]
    try simp only []
    rw [hpr]
    try simp only []
    rw [hpom]
    try simp only []
    rw [hpd]
    try simp only [Bind.bind, Except.bind]
    rw [hfo]
    try simp only [Bind.bind, Except.bind]
    rw [hp0]
    try simp only []
    rw [horder]
  · intro creds hEnv ph params e hc ht
    unfold run_hotel_booking
    rw [hc]
    simp only [Bool.false_eq_true, if_false]
    rw [ht]
  · intro creds hEnv ph params tk tok e hc ht ha hby
    unfold run_hotel_booking
    rw [hc]
    simp only [Bool.false_eq_true, if_false]
    rw [ht]
    try simp only []
    rw [ha]
    try simp only []
    rw [hby]
  · intro creds hEnv ph params tk tok results hotels0 ids strs e
      hc ht ha hby hmo hdata hids hstrs hoffers
    unfold run_hotel_booking
    rw [hc]
    simp only [Bool.false_eq_true, if_false]
    rw [ht]
    try simp only []
    rw [ha]
    try simp only []
    rw [hby]
    try simp only []
    rw [hmo]
    try simp only []
    rw [hdata]
    try simp only []
    rw [hids]
    try simp only []
    rw [hstrs]
    try simp only []
    rw [hoffers]
  · intro creds hEnv ph params tk tok results hotels0 ids strs pricing_data hotels
      keyed top5 us hchosen hoffers o0 idv gds e
      hc ht ha hby hmo hdata hids hstrs hpr hdk hpd hkeyed htop hdisp hget5 hoffs
      ho0 hidv hguests horder
    unfold run_hotel_booking
    rw [hc]
    simp only [Bool.false_eq_true, if_false]
    rw [ht]
    try simp only []
    rw [ha]
    try simp only []
    rw [hby]
    try simp only []
    rw [hmo]
    try simp only []
    rw [hdata]
    try simp only []
    rw [hids]
    try simp only []
    rw [hstrs]
    try simp only []
    rw [hpr]
    try simp only []
    rw [hdk]
    try simp only []
    rw [hpd]
    try simp only []
    rw [hkeyed]
    try simp only []
    rw [htop]
    try simp only []
    rw [hdisp]
    try simp only []
    rw [hget5]
    try simp only [Bind.bind, Except.bind]
    rw [hoffs]
    try simp only [Bind.bind, Except.bind]
    rw [ho0]
    try simp only [Bind.bind, Except.bind]
    rw [hidv]
    try simp only []
    rw [hguests]
    try simp only []
    rw [horder]
  · intro creds fEnv hEnv iEnv pf ph params fres fn hres hn hc hf hh
    obtain ⟨s, n, hi⟩ := run_itinerary_ok creds iEnv params hc
    refine ⟨s, ?_⟩
    unfold initiate_bookings_legs
    rw [hf, hh, hi]
  · intro e calls succ
    exact ⟨rfl, rfl⟩

/-- Witness for C4, exercising two failure sites concretely: a hotel
    search failure alongside a fully successful flight leg (the
    orchestrator returns the partial result with the flight order and the
    hotel error dict), and a flight-order failure yielding the flight
    error dict after three successful calls. -/
theorem initiate_bookings_leg_failure_contained_witness :
    (∃ s, initiate_bookings_legs ⟨some "id", some "secret"⟩ exampleFlightEnvOk
      exampleHotelEnvSearchFail exampleItineraryEnv "" "" exampleBookingParams =
      .ok { flight_booking_result := exampleFlightOrderResult
            hotel_booking_result := hotelErr "HotelDown" 2 1
            itinerary_result := s
            flight_api_calls := counterGet exampleFlightOrderResult "_flight_api_calls"
            flight_api_success := counterGet exampleFlightOrderResult "_flight_api_success"
            hotel_api_calls := counterGet (hotelErr "HotelDown" 2 1) "_hotel_api_calls"
            hotel_api_success := counterGet (hotelErr "HotelDown" 2 1) "_hotel_api_success" }) ∧
    run_flight_booking ⟨some "id", some "secret"⟩ exampleFlightEnvOrderFail ""
      exampleBookingParams = (.ok (flightErr "OrderDown" 4 3), 4) :=
  ⟨initiate_bookings_leg_failure_contained.2.2.2.2.2.2.2.2.1
    ⟨some "id", some "secret"⟩ exampleFlightEnvOk exampleHotelEnvSearchFail
    exampleItineraryEnv "" "" exampleBookingParams exampleFlightOrderResult 4
    (hotelErr "HotelDown" 2 1) 2 rfl rfl rfl,
   initiate_bookings_leg_failure_contained.2.2.2.1
    ⟨some "id", some "secret"⟩ exampleFlightEnvOrderFail "" exampleBookingParams
    (JVal.obj [("access_token", JVal.str "tok")]) (JVal.str "tok")
    exampleOffersResponse [exampleFlightOffer]
    (JVal.obj [("carriers", JVal.obj [("XX", JVal.str "Example Air")])])
    (JVal.obj [("XX", JVal.str "Example Air")])
    [JVal.obj [
      ("departure", JVal.str "JFK at: 2024-12-20T10:00"),
      ("arrival", JVal.str "DEL at: 2024-12-21T05:00"),
      ("return departure", JVal.str "DEL at: 2025-01-05T12:00"),
      ("return arrival", JVal.str "JFK at: 2025-01-05T20:00"),
      ("airlines", JVal.str "Example Air"), ("return airlines", JVal.str "Example Air"),
      ("price", JVal.str "980.00"), ("currency", JVal.str "USD")]]
    examplePricingResponse
    (JVal.obj [("flightOffers", JVal.arr [JVal.obj [("total", JVal.str "980.00")]])])
    (JVal.arr [JVal.obj [("total", JVal.str "980.00")]])
    (JVal.obj [("total", JVal.str "980.00")])
    "OrderDown" rfl rfl rfl rfl rfl rfl rfl rfl rfl rfl rfl rfl rfl rfl rfl⟩
